import Mathlib

/-! # go-oracle-terraform: orchestration and storage-attachment lifecycles

A shallow embedding of `compute/orchestration.go`,
`compute/storage_volume_attachments.go` (namespace `Compute`) and
`application/application_container_client.go` (namespace `Application`).

* Go values of type `(T, error)` become pairs with an `Option GoError`.
* A run-time panic (failed type assertion, nil dereference) is the `Res.panic`
  outcome.
* The remote service is a `Transport σ` over an arbitrary world state `σ`; every
  request that crosses the transport boundary is appended to a trace.
-/

set_option maxRecDepth 20000

namespace Compute

/-! ## Basic values -/

/-- Go's `time.Duration`: a signed count of nanoseconds. -/
abbrev Duration := Int

/-- One second as a `time.Duration`. -/
def Second : Duration := 1000000000

/-- Constant `WaitForOrchestrationActiveTimeout`. -/
def WaitForOrchestrationActiveTimeout : Duration := 3600 * Second

/-- Constant `WaitForOrchestrationDeleteTimeout`. -/
def WaitForOrchestrationDeleteTimeout : Duration := 3600 * Second

/-- Go `error` values met in these files: an error handed back by the transport
(which says whether it is the NotFound variant), an error built by `fmt.Errorf`, and
the poll engine's timeout. -/
inductive GoError where
  | transport (notFound : Bool) (message : String)
  | errorf (message : String)
  | timeout (description : String)
  deriving DecidableEq, Repr

/-- The `Error()` method: the text an error is printed as under `%s`. -/
def GoError.Error : GoError → String
  | .transport _ m => m
  | .errorf m => m
  | .timeout d => "Timeout waiting for " ++ d

/-- Modelled from the spec: `client.WasNotFoundError` (package `client`, not among the
sources). The transport's errors distinguish NotFound from every other failure. -/
def WasNotFoundError : GoError → Bool
  | .transport nf _ => nf
  | _ => false

/-- Outcome of running Go code that may panic. -/
inductive Res (α : Type) where
  | ok (a : α)
  | panic (msg : String)
  deriving Repr

/-- Continue with `f` after a computation that did not panic. -/
def Res.andThen {α β : Type} : Res α → (α → Res β) → Res β
  | .ok a, f => f a
  | .panic m, _ => .panic m

/-! ## Status enumerations (Go string types) -/

def OrchestrationDesiredStateActive : String := "active"
def OrchestrationDesiredStateInactive : String := "inactive"
def OrchestrationDesiredStateSuspend : String := "suspend"

def OrchestrationStatusActive : String := "active"
def OrchestrationStatusInactive : String := "inactive"
def OrchestrationStatusSuspend : String := "suspend"
def OrchestrationStatusActivating : String := "activating"
def OrchestrationStatusDeleting : String := "deleting"
def OrchestrationStatusError : String := "terminal_error"
def OrchestrationStatusStopping : String := "stopping"
def OrchestrationStatusSuspending : String := "suspending"
def OrchestrationStatusStarting : String := "starting"
def OrchestrationStatusDeactivating : String := "deactivating"
def OrchestrationStatusSuspended : String := "suspended"

def OrchestrationTypeInstance : String := "Instance"

/-! ## Records -/

/-- Struct `Health`. -/
structure Health where
  Status : String := ""
  Cause : String := ""
  Detail : String := ""
  Error : String := ""
  deriving DecidableEq, Repr

/-- Struct `Relationship` (the Go field `Type` is written `Typ`). -/
structure Relationship where
  Typ : String := ""
  Targets : List String := []
  deriving DecidableEq, Repr

/-- Struct `StorageAttachmentInput` of the instance input (index and volume). -/
structure StorageAttachmentInput where
  Index : Int := 0
  Volume : String := ""
  deriving DecidableEq, Repr

/-- The networking section of an instance input. Its type and `qualifyNetworking` are
declared in `instances.go`, which is not among the sources; the value is kept
uninterpreted and only ever transformed by the client's `qualifyNetworking`. -/
structure Networking where
  encoded : String := ""
  deriving DecidableEq, Repr

/-- The fields of `CreateInstanceInput` (declared in `instances.go`) that
`CreateOrchestration` reads and writes. -/
structure CreateInstanceInput where
  Name : String := ""
  SSHKeys : List String := []
  Storage : List StorageAttachmentInput := []
  Networking : Networking := {}
  deriving DecidableEq, Repr

/-- A dynamically typed value stored in a decoded `map[string]interface{}`. -/
inductive Dyn where
  | str (s : String)
  | num (n : Int)
  | null
  deriving DecidableEq, Repr

/-- Go map read `m[k]`: the stored value, or nothing when the key is absent. -/
def mapGet : List (String × Dyn) → String → Option Dyn
  | [], _ => none
  | (k, v) :: rest, key => if k = key then some v else mapGet rest key

/-- Go map write `m[k] = v`. -/
def mapSet : List (String × Dyn) → String → Dyn → List (String × Dyn)
  | [], key, v => [(key, v)]
  | (k, w) :: rest, key, v => if k = key then (k, v) :: rest else (k, w) :: mapSet rest key v

/-- The `Template interface{}` field of an object: a `*CreateInstanceInput` (what a
caller of `CreateOrchestration` supplies), a `map[string]interface{}` (what the JSON
decoder produces, and what `UpdateOrchestration` expects), or any other value. -/
inductive Template where
  | createInstance (input : CreateInstanceInput)
  | dict (m : List (String × Dyn))
  | other
  deriving DecidableEq, Repr

/-- Struct `Object` (the Go field `Type` is written `Typ`). -/
structure Object where
  Account : String := ""
  Description : String := ""
  DesiredState : String := ""
  Health : Health := {}
  Label : String := ""
  Name : String := ""
  Orchestration : String := ""
  Persistent : Bool := false
  Relationships : List Relationship := []
  Template : Template := Template.other
  Typ : String := ""
  Version : Int := 0
  deriving DecidableEq, Repr

/-- Struct `Orchestration`. -/
structure Orchestration where
  Account : String := ""
  Description : String := ""
  DesiredState : String := ""
  ID : String := ""
  Name : String := ""
  Objects : List Object := []
  Status : String := ""
  Tags : List String := []
  TimeAudited : String := ""
  TimeCreated : String := ""
  TimeUpdated : String := ""
  URI : String := ""
  User : String := ""
  Version : Int := 0
  deriving DecidableEq, Repr

/-- Struct `CreateOrchestrationInput`. -/
structure CreateOrchestrationInput where
  Account : String := ""
  Description : String := ""
  DesiredState : String := ""
  Name : String := ""
  Objects : List Object := []
  Tags : List String := []
  Version : Int := 0
  Timeout : Duration := 0
  deriving DecidableEq, Repr

/-- Struct `GetOrchestrationInput`. -/
structure GetOrchestrationInput where
  Name : String := ""
  deriving DecidableEq, Repr

/-- Struct `UpdateOrchestrationInput`. -/
structure UpdateOrchestrationInput where
  Account : String := ""
  Description : String := ""
  DesiredState : String := ""
  Name : String := ""
  Objects : List Object := []
  Tags : List String := []
  Version : Int := 0
  Timeout : Duration := 0
  deriving DecidableEq, Repr

/-- Struct `DeleteOrchestrationInput`. -/
structure DeleteOrchestrationInput where
  Name : String := ""
  Timeout : Duration := 0
  deriving DecidableEq, Repr

/-! ## Storage attachments: records -/

/-- Constant `WaitForVolumeAttachmentDeletePollInterval`. -/
def WaitForVolumeAttachmentDeletePollInterval : Duration := 1 * Second

/-- Constant `WaitForVolumeAttachmentDeleteTimeout`. -/
def WaitForVolumeAttachmentDeleteTimeout : Duration := 30 * Second

/-- Constant `WaitForVolumeAttachmentReadyPollInterval`. -/
def WaitForVolumeAttachmentReadyPollInterval : Duration := 1 * Second

/-- Constant `WaitForVolumeAttachmentReadyTimeout`. -/
def WaitForVolumeAttachmentReadyTimeout : Duration := 30 * Second

def Attaching : String := "attaching"
def Attached : String := "attached"
def Detaching : String := "detaching"
def Unavailable : String := "unavailable"
def Unknown : String := "unknown"

/-- Struct `StorageAttachmentInfo`. -/
structure StorageAttachmentInfo where
  Name : String := ""
  Index : Int := 0
  InstanceName : String := ""
  StorageVolumeName : String := ""
  State : String := ""
  deriving DecidableEq, Repr

/-- Struct `CreateStorageAttachmentInput`. -/
structure CreateStorageAttachmentInput where
  Index : Int := 0
  InstanceName : String := ""
  StorageVolumeName : String := ""
  PollInterval : Duration := 0
  Timeout : Duration := 0
  deriving DecidableEq, Repr

/-- Struct `DeleteStorageAttachmentInput`. -/
structure DeleteStorageAttachmentInput where
  Name : String := ""
  PollInterval : Duration := 0
  Timeout : Duration := 0
  deriving DecidableEq, Repr

/-- Struct `GetStorageAttachmentInput`. -/
structure GetStorageAttachmentInput where
  Name : String := ""
  deriving DecidableEq, Repr

/-! ## The transport boundary and the trace -/

/-- What crosses the boundary of this package during a run, in order: each request
handed to the resource client, each call of the poll engine with the wait
configuration it is given, and each debug-log line. -/
inductive Call where
  | createOrchestration (body : CreateOrchestrationInput)
  | updateOrchestration (name : String) (body : UpdateOrchestrationInput)
  | getOrchestration (name : String)
  | deleteOrchestration (name : String)
  | createAttachment (body : CreateStorageAttachmentInput)
  | getAttachment (name : String)
  | deleteAttachment (name : String)
  | waitFor (description : String) (pollInterval : Option Duration) (timeout : Duration)
  | debugLog (message : String)
  deriving DecidableEq, Repr

/-- The remote service as seen through the resource client (`createResource`,
`getResource`, `updateResource`, `deleteResource`, `deleteOrchestration`; none of them
among the sources): each request either fails with an error or yields the decoded
response, and moves the world on. A storage attachment is decoded into a pointer,
which can stay nil. `sleep` is what the passing of one poll interval does to the
world, and `polls` tells how many further probes fit into a wait before its timeout
fires (wall-clock time is not represented otherwise). -/
structure Transport (σ : Type) where
  createOrchestration : CreateOrchestrationInput → σ → Except GoError Orchestration × σ
  getOrchestration : String → σ → Except GoError Orchestration × σ
  updateOrchestration : String → UpdateOrchestrationInput → σ → Except GoError Orchestration × σ
  deleteOrchestration : String → σ → Option GoError × σ
  createAttachment : CreateStorageAttachmentInput → σ → Except GoError (Option StorageAttachmentInfo) × σ
  getAttachment : String → σ → Except GoError (Option StorageAttachmentInfo) × σ
  deleteAttachment : String → σ → Option GoError × σ
  sleep : Option Duration → σ → σ
  polls : String → Option Duration → Duration → σ → Nat

/-- The client: its name qualifier (`getQualifiedName`, `getUnqualifiedName`,
`qualifyNetworking`, declared outside the sources), the rendering `fmt` gives an
orchestration under `%+v`, and the transport. -/
structure ComputeClient (σ : Type) where
  getQualifiedName : String → String
  getUnqualifiedName : String → String
  qualifyNetworking : Networking → Networking
  fmtOrchestration : Orchestration → String
  transport : Transport σ

/-- The state of a run: the world and the trace so far. -/
structure St (σ : Type) where
  world : σ
  trace : List Call

variable {σ : Type}

/-- Append one entry to the trace. -/
def St.log (st : St σ) (call : Call) : St σ :=
  { st with trace := st.trace ++ [call] }

/-- Method `DebugLogString` of the client. -/
def DebugLogString (message : String) (st : St σ) : St σ :=
  st.log (Call.debugLog message)

/-- Whether a trace entry is a delete request (of either resource kind). -/
def Call.isDelete : Call → Bool
  | Call.deleteOrchestration _ => true
  | Call.deleteAttachment _ => true
  | _ => false

/-- The delete requests in a trace, in order. -/
def deleteCalls (trace : List Call) : List Call :=
  trace.filter Call.isDelete

/-- The bodies of the orchestration create requests in a trace, in order. -/
def createBodies : List Call → List CreateOrchestrationInput
  | [] => []
  | Call.createOrchestration b :: rest => b :: createBodies rest
  | _ :: rest => createBodies rest

/-- The bodies of the orchestration update requests in a trace, in order. -/
def updateBodies : List Call → List UpdateOrchestrationInput
  | [] => []
  | Call.updateOrchestration _ b :: rest => b :: updateBodies rest
  | _ :: rest => updateBodies rest

/-- The orchestration get requests in a trace, in order. -/
def getRequests : List Call → List String
  | [] => []
  | Call.getOrchestration n :: rest => n :: getRequests rest
  | _ :: rest => getRequests rest

/-- The storage-attachment get requests in a trace, in order. -/
def attachmentGetRequests : List Call → List String
  | [] => []
  | Call.getAttachment n :: rest => n :: attachmentGetRequests rest
  | _ :: rest => attachmentGetRequests rest

/-- Method `createResource` of the orchestrations client. -/
def createResource (c : ComputeClient σ) (body : CreateOrchestrationInput) (st : St σ) :
    Except GoError Orchestration × St σ :=
  let r := c.transport.createOrchestration body st.world
  (r.1, { world := r.2, trace := st.trace ++ [Call.createOrchestration body] })

/-- Method `getResource` of the orchestrations client. -/
def getResource (c : ComputeClient σ) (name : String) (st : St σ) :
    Except GoError Orchestration × St σ :=
  let r := c.transport.getOrchestration name st.world
  (r.1, { world := r.2, trace := st.trace ++ [Call.getOrchestration name] })

/-- Method `updateResource` of the orchestrations client. -/
def updateResource (c : ComputeClient σ) (name : String) (body : UpdateOrchestrationInput)
    (st : St σ) : Except GoError Orchestration × St σ :=
  let r := c.transport.updateOrchestration name body st.world
  (r.1, { world := r.2, trace := st.trace ++ [Call.updateOrchestration name body] })

/-- Method `deleteOrchestration` of the resource client. -/
def deleteOrchestration (c : ComputeClient σ) (name : String) (st : St σ) :
    Option GoError × St σ :=
  let r := c.transport.deleteOrchestration name st.world
  (r.1, { world := r.2, trace := st.trace ++ [Call.deleteOrchestration name] })

/-- Method `createResource` of the storage attachments client. -/
def createAttachmentResource (c : ComputeClient σ) (body : CreateStorageAttachmentInput)
    (st : St σ) : Except GoError (Option StorageAttachmentInfo) × St σ :=
  let r := c.transport.createAttachment body st.world
  (r.1, { world := r.2, trace := st.trace ++ [Call.createAttachment body] })

/-- Method `getResource` of the storage attachments client. -/
def getAttachmentResource (c : ComputeClient σ) (name : String) (st : St σ) :
    Except GoError (Option StorageAttachmentInfo) × St σ :=
  let r := c.transport.getAttachment name st.world
  (r.1, { world := r.2, trace := st.trace ++ [Call.getAttachment name] })

/-- Method `deleteResource` of the storage attachments client. -/
def deleteResource (c : ComputeClient σ) (name : String) (st : St σ) :
    Option GoError × St σ :=
  let r := c.transport.deleteAttachment name st.world
  (r.1, { world := r.2, trace := st.trace ++ [Call.deleteAttachment name] })

/-! ## The poll engine -/

/-- Modelled from the spec: the loop of the Poll Engine `WaitFor` (package `client`,
not among the sources). The probe runs at once; the wait ends successfully the first
time the probe reports converged, ends with the probe's error the first time it
reports one, and otherwise sleeps one poll interval and repeats, until the timeout
fires, which gives a timeout error that names the description. `n` is the number of
further probes the timeout still admits. `L` is the type of the variables the probe
closure captures. -/
def pollLoop {L : Type} (c : ComputeClient σ) (description : String)
    (pollInterval : Option Duration)
    (probe : L → St σ → Res (Bool × Option GoError) × L × St σ) :
    Nat → L → St σ → Res (Option GoError) × L × St σ
  | 0, l, st =>
    match probe l st with
    | (Res.panic m, l1, st1) => (Res.panic m, l1, st1)
    | (Res.ok (_, some err), l1, st1) => (Res.ok (some err), l1, st1)
    | (Res.ok (true, none), l1, st1) => (Res.ok none, l1, st1)
    | (Res.ok (false, none), l1, st1) => (Res.ok (some (GoError.timeout description)), l1, st1)
  | n + 1, l, st =>
    match probe l st with
    | (Res.panic m, l1, st1) => (Res.panic m, l1, st1)
    | (Res.ok (_, some err), l1, st1) => (Res.ok (some err), l1, st1)
    | (Res.ok (true, none), l1, st1) => (Res.ok none, l1, st1)
    | (Res.ok (false, none), l1, st1) =>
      pollLoop c description pollInterval probe n l1
        { st1 with world := c.transport.sleep pollInterval st1.world }

/-- Modelled from the spec: the Poll Engine `WaitFor(description, pollInterval,
timeout, probe)` (package `client`, not among the sources). The orchestration waits
call it without a poll interval (`none`). The call and its wait configuration are
recorded in the trace. -/
def WaitFor {L : Type} (c : ComputeClient σ) (description : String)
    (pollInterval : Option Duration) (timeout : Duration)
    (probe : L → St σ → Res (Bool × Option GoError) × L × St σ) (l : L) (st : St σ) :
    Res (Option GoError) × L × St σ :=
  pollLoop c description pollInterval probe
    (c.transport.polls description pollInterval timeout st.world) l
    (st.log (Call.waitFor description pollInterval timeout))

/-! ## orchestration.go -/

/-- What `fmt` prints for a `Health` under `%+v`. -/
def fmtHealth (h : Health) : String :=
  "\x7bStatus:" ++ h.Status ++ " Cause:" ++ h.Cause ++ " Detail:" ++ h.Detail ++
    " Error:" ++ h.Error ++ "\x7d"

/-- The qualification of one `*CreateInstanceInput` in `CreateOrchestration`: name,
SSH keys, storage volumes and networking. -/
def qualifyInstanceInput (c : ComputeClient σ) (instanceInput : CreateInstanceInput) :
    CreateInstanceInput :=
  { instanceInput with
    Name := c.getQualifiedName instanceInput.Name
    SSHKeys := instanceInput.SSHKeys.map c.getQualifiedName
    Storage := instanceInput.Storage.map fun attachment =>
      { Index := attachment.Index, Volume := c.getQualifiedName attachment.Volume }
    Networking := c.qualifyNetworking instanceInput.Networking }

/-- The loop `for _, i := range input.Objects` of `CreateOrchestration`; the result is
the slice `input.Objects` as the loop leaves it. The loop variable `i` is a copy of
the element, so the assignment to `i.Orchestration` does not reach the slice, while
the writes through the pointer `i.Template.(*CreateInstanceInput)` do. A template of
another dynamic type makes the type assertion panic. Templates are taken not to be
shared between objects. -/
def qualifyCreateObjects (c : ComputeClient σ) : List Object → Res (List Object)
  | [] => Res.ok []
  | element :: rest =>
    let i : Object := { element with Orchestration := c.getQualifiedName element.Orchestration }
    if i.Typ = OrchestrationTypeInstance then
      match i.Template with
      | Template.createInstance instanceInput =>
        (qualifyCreateObjects c rest).andThen fun rest1 =>
          Res.ok ({ element with
            Template := Template.createInstance (qualifyInstanceInput c instanceInput) } :: rest1)
      | _ => Res.panic "interface conversion: interface is not *CreateInstanceInput"
    else
      (qualifyCreateObjects c rest).andThen fun rest1 => Res.ok (element :: rest1)

/-- The loop `for _, i := range input.Objects` of `UpdateOrchestration`; the result is
the slice as the loop leaves it. The assignment to the copy `i.Orchestration` is lost;
the write `instanceInput["name"] = ...` goes to the map the element refers to. The
assertions panic when the template is not a map or its `"name"` is not a string. -/
def qualifyUpdateObjects (c : ComputeClient σ) : List Object → Res (List Object)
  | [] => Res.ok []
  | element :: rest =>
    let i : Object := { element with Orchestration := c.getQualifiedName element.Orchestration }
    if i.Typ = OrchestrationTypeInstance then
      match i.Template with
      | Template.dict instanceInput =>
        match mapGet instanceInput "name" with
        | some (Dyn.str name) =>
          (qualifyUpdateObjects c rest).andThen fun rest1 =>
            Res.ok ({ element with
              Template := Template.dict
                (mapSet instanceInput "name" (Dyn.str (c.getQualifiedName name))) } :: rest1)
        | _ => Res.panic "interface conversion: interface is not string"
      | _ => Res.panic "interface conversion: interface is not map[string]interface"
    else
      (qualifyUpdateObjects c rest).andThen fun rest1 => Res.ok (element :: rest1)

/-- The loop `for _, i := range info.Objects` of `success`; the result is the slice as
the loop leaves it. `c.unqualify(&i.Orchestration)` writes to the copy `i`; the write
`instanceInput["name"] = ...` goes to the map the element refers to. -/
def successObjects (c : ComputeClient σ) : List Object → Res (List Object)
  | [] => Res.ok []
  | element :: rest =>
    let i : Object := { element with Orchestration := c.getUnqualifiedName element.Orchestration }
    if i.Typ = OrchestrationTypeInstance then
      match i.Template with
      | Template.dict instanceInput =>
        match mapGet instanceInput "name" with
        | some (Dyn.str name) =>
          (successObjects c rest).andThen fun rest1 =>
            Res.ok ({ element with
              Template := Template.dict
                (mapSet instanceInput "name" (Dyn.str (c.getUnqualifiedName name))) } :: rest1)
        | _ => Res.panic "interface conversion: interface is not string"
      | _ => Res.panic "interface conversion: interface is not map[string]interface"
    else
      (successObjects c rest).andThen fun rest1 => Res.ok (element :: rest1)

/-- Method `OrchestrationsClient.success`: `c.unqualify(&info.Name)` replaces the name
by its unqualified form, then the loop over the objects runs. The error it returns is
always nil. -/
def success (c : ComputeClient σ) (info : Orchestration) : Res Orchestration :=
  let info1 := { info with Name := c.getUnqualifiedName info.Name }
  (successObjects c info1.Objects).andThen fun objects =>
    Res.ok { info1 with Objects := objects }

/-- Method `GetOrchestration`: it returns `(nil, err)` when the request fails
(`Except.error err`) and `(info, nil)` otherwise (`Except.ok info`). -/
def GetOrchestration (c : ComputeClient σ) (input : GetOrchestrationInput) (st : St σ) :
    Res (Except GoError Orchestration) × St σ :=
  match getResource c input.Name st with
  | (Except.error err, st1) => (Res.ok (Except.error err), st1)
  | (Except.ok orchestrationInfo, st1) =>
    match success c orchestrationInfo with
    | Res.panic m => (Res.panic m, st1)
    | Res.ok info => (Res.ok (Except.ok info), st1)

/-- The loop over `info.Objects` in the `terminal_error` case of the ready wait: the
first object, in list order, whose health status is `terminal_error`. -/
def firstFailedObject : List Object → Option Object
  | [] => none
  | object :: rest =>
    if object.Health.Status = OrchestrationStatusError then some object
    else firstFailedObject rest

/-- The probe closure of `WaitForOrchestrationState`. The captured variable `info` is
overwritten by every call of `GetOrchestration` (with nil when that call fails);
`getErr` is only read inside the closure. -/
def orchestrationReadyProbe (c : ComputeClient σ) (input : GetOrchestrationInput)
    (_ : Option Orchestration) (st : St σ) :
    Res (Bool × Option GoError) × Option Orchestration × St σ :=
  match GetOrchestration c input st with
  | (Res.panic m, st1) => (Res.panic m, none, st1)
  | (Res.ok (Except.error getErr), st1) => (Res.ok (false, some getErr), none, st1)
  | (Res.ok (Except.ok info), st1) =>
    let st2 := DebugLogString ("Orchestration name is " ++ info.Name ++
      ", Orchestration info is &" ++ c.fmtOrchestration info) st1
    let s := info.Status
    if s = OrchestrationStatusError then
      match firstFailedObject info.Objects with
      | some object =>
        (Res.ok (false, some (GoError.errorf ("Error creating instance " ++ object.Name ++
          ": " ++ fmtHealth object.Health))), some info, st2)
      | none =>
        (Res.ok (false, some (GoError.errorf ("Error initializing orchestration: &" ++
          c.fmtOrchestration info))), some info, st2)
    else if s = info.DesiredState then
      (Res.ok (true, none), some info, DebugLogString ("Orchestration " ++ info.DesiredState) st2)
    else if s = OrchestrationStatusActivating then
      (Res.ok (false, none), some info, DebugLogString "Orchestration activating" st2)
    else if s = OrchestrationStatusStopping then
      (Res.ok (false, none), some info, DebugLogString "Orchestration stopping" st2)
    else if s = OrchestrationStatusSuspending then
      (Res.ok (false, none), some info, DebugLogString "Orchestration suspending" st2)
    else if s = OrchestrationStatusDeactivating then
      (Res.ok (false, none), some info, DebugLogString "Orchestration deactivating" st2)
    else if s = OrchestrationStatusSuspended then
      let st3 := DebugLogString "Orchestration suspended" st2
      if info.DesiredState = OrchestrationDesiredStateSuspend then
        (Res.ok (true, none), some info, st3)
      else
        (Res.ok (false, none), some info, st3)
    else
      (Res.ok (false, some (GoError.errorf ("Unknown orchestration state: " ++ s ++
        ", erroring"))), some info, st2)

/-- Method `WaitForOrchestrationState`. Its last statement `return *info, err`
dereferences `info`, which panics when `info` is nil. -/
def WaitForOrchestrationState (c : ComputeClient σ) (input : GetOrchestrationInput)
    (timeout : Duration) (st : St σ) : Res (Orchestration × Option GoError) × St σ :=
  match WaitFor c "orchestration to be ready" none timeout
      (orchestrationReadyProbe c input) none st with
  | (Res.panic m, _, st1) => (Res.panic m, st1)
  | (Res.ok _, none, st1) =>
    (Res.panic "invalid memory address or nil pointer dereference", st1)
  | (Res.ok err, some info, st1) => (Res.ok (info, err), st1)

/-- The probe closure of `WaitForOrchestrationDeleted`; it captures no variable it
writes to. -/
def orchestrationDeletedProbe (c : ComputeClient σ) (input : DeleteOrchestrationInput)
    (_ : Unit) (st : St σ) : Res (Bool × Option GoError) × Unit × St σ :=
  match getResource c input.Name st with
  | (Except.error err, st1) =>
    if WasNotFoundError err then (Res.ok (true, none), (), st1)
    else (Res.ok (false, some err), (), st1)
  | (Except.ok info, st1) =>
    let s := info.Status
    if s = OrchestrationStatusError then
      (Res.ok (false, some (GoError.errorf ("Error stopping orchestration: " ++
        c.fmtOrchestration info))), (), st1)
    else if s = OrchestrationStatusStopping then
      (Res.ok (false, none), (), DebugLogString "Orchestration stopping" st1)
    else if s = OrchestrationStatusDeleting then
      (Res.ok (false, none), (), DebugLogString "Orchestration deleting" st1)
    else if s = OrchestrationStatusActive then
      (Res.ok (false, none), (), DebugLogString "Orchestration active" st1)
    else
      (Res.ok (false, some (GoError.errorf ("Unknown orchestration state: " ++ s ++
        ", erroring"))), (), st1)

/-- Method `WaitForOrchestrationDeleted`. -/
def WaitForOrchestrationDeleted (c : ComputeClient σ) (input : DeleteOrchestrationInput)
    (timeout : Duration) (st : St σ) : Res (Option GoError) × St σ :=
  match WaitFor c "orchestration to be deleted" none timeout
      (orchestrationDeletedProbe c input) () st with
  | (r, _, st1) => (r, st1)

/-- Method `DeleteOrchestration`. -/
def DeleteOrchestration (c : ComputeClient σ) (input : DeleteOrchestrationInput)
    (st : St σ) : Res (Option GoError) × St σ :=
  match deleteOrchestration c input.Name st with
  | (some err, st1) => (Res.ok (some err), st1)
  | (none, st1) =>
    let input1 : DeleteOrchestrationInput :=
      if input.Timeout = 0 then { input with Timeout := WaitForOrchestrationDeleteTimeout }
      else input
    WaitForOrchestrationDeleted c input1 input1.Timeout st1

/-- Method `CreateOrchestration`. The result is the pair `(*Orchestration, error)`. -/
def CreateOrchestration (c : ComputeClient σ) (input : CreateOrchestrationInput)
    (st : St σ) : Res (Option Orchestration × Option GoError) × St σ :=
  let input1 : CreateOrchestrationInput := { input with Name := c.getQualifiedName input.Name }
  match qualifyCreateObjects c input1.Objects with
  | Res.panic m => (Res.panic m, st)
  | Res.ok objects =>
    let input2 : CreateOrchestrationInput := { input1 with Objects := objects }
    match createResource c input2 st with
    | (Except.error err, st1) => (Res.ok (none, some err), st1)
    | (Except.ok createdOrchestration, st1) =>
      let getInput : GetOrchestrationInput := { Name := createdOrchestration.Name }
      let input3 : CreateOrchestrationInput :=
        if input2.Timeout = 0 then { input2 with Timeout := WaitForOrchestrationActiveTimeout }
        else input2
      match WaitForOrchestrationState c getInput input3.Timeout st1 with
      | (Res.panic m, st2) => (Res.panic m, st2)
      | (Res.ok (_, some orchestrationError), st2) =>
        let deleteInput : DeleteOrchestrationInput := { Name := createdOrchestration.Name }
        match DeleteOrchestration c deleteInput st2 with
        | (Res.panic m, st3) => (Res.panic m, st3)
        | (Res.ok (some err), st3) =>
          (Res.ok (none, some (GoError.errorf ("Error deleting orchestration " ++
            getInput.Name ++ ": " ++ err.Error))), st3)
        | (Res.ok none, st3) =>
          (Res.ok (none, some (GoError.errorf ("Error creating orchestration " ++
            getInput.Name ++ ": " ++ orchestrationError.Error))), st3)
      | (Res.ok (orchestrationInfo, none), st2) => (Res.ok (some orchestrationInfo, none), st2)

/-- Method `UpdateOrchestration`. The result is the pair `(*Orchestration, error)`. -/
def UpdateOrchestration (c : ComputeClient σ) (input : UpdateOrchestrationInput)
    (st : St σ) : Res (Option Orchestration × Option GoError) × St σ :=
  let input1 : UpdateOrchestrationInput := { input with Name := c.getQualifiedName input.Name }
  match qualifyUpdateObjects c input1.Objects with
  | Res.panic m => (Res.panic m, st)
  | Res.ok objects =>
    let input2 : UpdateOrchestrationInput := { input1 with Objects := objects }
    match updateResource c input2.Name input2 st with
    | (Except.error err, st1) => (Res.ok (none, some err), st1)
    | (Except.ok updatedOrchestration, st1) =>
      let getInput : GetOrchestrationInput := { Name := updatedOrchestration.Name }
      let input3 : UpdateOrchestrationInput :=
        if input2.Timeout = 0 then { input2 with Timeout := WaitForOrchestrationActiveTimeout }
        else input2
      match WaitForOrchestrationState c getInput input3.Timeout st1 with
      | (Res.panic m, st2) => (Res.panic m, st2)
      | (Res.ok (_, some orchestrationError), st2) => (Res.ok (none, some orchestrationError), st2)
      | (Res.ok (orchestrationInfo, none), st2) => (Res.ok (some orchestrationInfo, none), st2)

/-! ## storage_volume_attachments.go -/

/-- Method `StorageAttachmentsClient.success`: `c.unqualify` of the three names. Taking
the address of a field of a nil `*StorageAttachmentInfo` panics. -/
def attachmentSuccess (c : ComputeClient σ) :
    Option StorageAttachmentInfo → Res StorageAttachmentInfo
  | none => Res.panic "invalid memory address or nil pointer dereference"
  | some attachmentInfo =>
    Res.ok { attachmentInfo with
      Name := c.getUnqualifiedName attachmentInfo.Name
      InstanceName := c.getUnqualifiedName attachmentInfo.InstanceName
      StorageVolumeName := c.getUnqualifiedName attachmentInfo.StorageVolumeName }

/-- Method `GetStorageAttachment`: `(nil, err)` when the request fails, `(info, nil)`
otherwise. -/
def GetStorageAttachment (c : ComputeClient σ) (input : GetStorageAttachmentInput)
    (st : St σ) : Res (Except GoError StorageAttachmentInfo) × St σ :=
  match getAttachmentResource c input.Name st with
  | (Except.error err, st1) => (Res.ok (Except.error err), st1)
  | (Except.ok attachmentInfo, st1) =>
    match attachmentSuccess c attachmentInfo with
    | Res.panic m => (Res.panic m, st1)
    | Res.ok info => (Res.ok (Except.ok info), st1)

/-- The probe closure of `waitForStorageAttachmentToFullyAttach`; it captures
`waitResult`. -/
def attachProbe (c : ComputeClient σ) (name : String)
    (waitResult : Option StorageAttachmentInfo) (st : St σ) :
    Res (Bool × Option GoError) × Option StorageAttachmentInfo × St σ :=
  let input : GetStorageAttachmentInput := { Name := name }
  match GetStorageAttachment c input st with
  | (Res.panic m, st1) => (Res.panic m, waitResult, st1)
  | (Res.ok (Except.error err), st1) => (Res.ok (false, some err), waitResult, st1)
  | (Res.ok (Except.ok info), st1) =>
    if info.State = Attached then (Res.ok (true, none), some info, st1)
    else (Res.ok (false, none), waitResult, st1)

/-- Method `waitForStorageAttachmentToFullyAttach`. -/
def waitForStorageAttachmentToFullyAttach (c : ComputeClient σ) (name : String)
    (pollInterval timeout : Duration) (st : St σ) :
    Res (Option StorageAttachmentInfo × Option GoError) × St σ :=
  match WaitFor c "storage attachment to be attached" (some pollInterval) timeout
      (attachProbe c name) none st with
  | (Res.panic m, _, st1) => (Res.panic m, st1)
  | (Res.ok err, waitResult, st1) => (Res.ok (waitResult, err), st1)

/-- The probe closure of `waitForStorageAttachmentToBeDeleted`. -/
def attachmentDeletedProbe (c : ComputeClient σ) (name : String) (_ : Unit) (st : St σ) :
    Res (Bool × Option GoError) × Unit × St σ :=
  let input : GetStorageAttachmentInput := { Name := name }
  match GetStorageAttachment c input st with
  | (Res.panic m, st1) => (Res.panic m, (), st1)
  | (Res.ok (Except.error err), st1) =>
    if WasNotFoundError err then (Res.ok (true, none), (), st1)
    else (Res.ok (false, some err), (), st1)
  | (Res.ok (Except.ok _), st1) => (Res.ok (false, none), (), st1)

/-- Method `waitForStorageAttachmentToBeDeleted`. -/
def waitForStorageAttachmentToBeDeleted (c : ComputeClient σ) (name : String)
    (pollInterval timeout : Duration) (st : St σ) : Res (Option GoError) × St σ :=
  match WaitFor c "storage attachment to be deleted" (some pollInterval) timeout
      (attachmentDeletedProbe c name) () st with
  | (r, _, st1) => (r, st1)

/-- Method `CreateStorageAttachment`. `attachmentInfo` is a pointer the response is
decoded into; reading `attachmentInfo.Name` panics when it is still nil. -/
def CreateStorageAttachment (c : ComputeClient σ) (input : CreateStorageAttachmentInput)
    (st : St σ) : Res (Option StorageAttachmentInfo × Option GoError) × St σ :=
  let input1 : CreateStorageAttachmentInput :=
    { input with InstanceName := c.getQualifiedName input.InstanceName }
  let input2 : CreateStorageAttachmentInput :=
    { input1 with StorageVolumeName := c.getQualifiedName input1.StorageVolumeName }
  match createAttachmentResource c input2 st with
  | (Except.error err, st1) => (Res.ok (none, some err), st1)
  | (Except.ok attachmentInfo, st1) =>
    let input3 : CreateStorageAttachmentInput :=
      if input2.PollInterval = 0 then
        { input2 with PollInterval := WaitForVolumeAttachmentReadyPollInterval }
      else input2
    let input4 : CreateStorageAttachmentInput :=
      if input3.Timeout = 0 then { input3 with Timeout := WaitForVolumeAttachmentReadyTimeout }
      else input3
    match attachmentInfo with
    | none => (Res.panic "invalid memory address or nil pointer dereference", st1)
    | some info =>
      waitForStorageAttachmentToFullyAttach c info.Name input4.PollInterval input4.Timeout st1

/-- Method `DeleteStorageAttachment`. -/
def DeleteStorageAttachment (c : ComputeClient σ) (input : DeleteStorageAttachmentInput)
    (st : St σ) : Res (Option GoError) × St σ :=
  match deleteResource c input.Name st with
  | (some err, st1) => (Res.ok (some err), st1)
  | (none, st1) =>
    let input1 : DeleteStorageAttachmentInput :=
      if input.PollInterval = 0 then
        { input with PollInterval := WaitForVolumeAttachmentDeletePollInterval }
      else input
    let input2 : DeleteStorageAttachmentInput :=
      if input1.Timeout = 0 then { input1 with Timeout := WaitForVolumeAttachmentDeleteTimeout }
      else input1
    waitForStorageAttachmentToBeDeleted c input2.Name input2.PollInterval input2.Timeout st1

/-! ## A name qualifier and a scripted service, for concrete runs -/

/-- Modelled from the spec: `Qualify(scope, shortID)` of the Name Qualifier (the
client's `getQualifiedName` is not among the sources). It puts the scope's path in
front of the identifier unless the identifier already begins with it. -/
def Qualify (scope shortID : String) : String :=
  if (scope.data ++ ['/']).isPrefixOf shortID.data then shortID
  else String.mk (scope.data ++ ['/'] ++ shortID.data)

/-- Modelled from the spec: `Unqualify(scope, qualifiedID)` of the Name Qualifier (the
client's `getUnqualifiedName` is not among the sources). It strips exactly the scope's
path when the identifier begins with it and returns the input unchanged otherwise. -/
def Unqualify (scope qualifiedID : String) : String :=
  if (scope.data ++ ['/']).isPrefixOf qualifiedID.data then
    String.mk (qualifiedID.data.drop (scope.data.length + 1))
  else qualifiedID

/-- A scripted service: fixed replies to create, update and delete, and a queue of
replies to successive get requests (NotFound once the queue is empty). -/
structure Script where
  createReply : Except GoError Orchestration := Except.ok {}
  updateReply : Except GoError Orchestration := Except.ok {}
  getReplies : List (Except GoError Orchestration) := []
  deleteReply : Option GoError := none
  attachReply : Except GoError (Option StorageAttachmentInfo) := Except.ok none
  attachGetReplies : List (Except GoError (Option StorageAttachmentInfo)) := []
  attachDeleteReply : Option GoError := none
  pollLimit : Nat := 0

/-- The transport of the scripted service. -/
def scriptedTransport : Transport Script where
  createOrchestration := fun _ w => (w.createReply, w)
  getOrchestration := fun _ w =>
    match w.getReplies with
    | [] => (Except.error (GoError.transport true "404: not found"), w)
    | r :: rest => (r, { w with getReplies := rest })
  updateOrchestration := fun _ _ w => (w.updateReply, w)
  deleteOrchestration := fun _ w => (w.deleteReply, w)
  createAttachment := fun _ w => (w.attachReply, w)
  getAttachment := fun _ w =>
    match w.attachGetReplies with
    | [] => (Except.error (GoError.transport true "404: not found"), w)
    | r :: rest => (r, { w with attachGetReplies := rest })
  deleteAttachment := fun _ w => (w.attachDeleteReply, w)
  sleep := fun _ w => w
  polls := fun _ _ _ w => w.pollLimit

/-- A client of the scripted service whose scope is `/Compute-acme/jdoe`, for concrete
runs only. Its rendering of an orchestration shows the name and the status, where
Go's `%+v` prints every field; the general theorems take the rendering as a parameter
of the client. -/
def acmeClient : ComputeClient Script where
  getQualifiedName := Qualify "/Compute-acme/jdoe"
  getUnqualifiedName := Unqualify "/Compute-acme/jdoe"
  qualifyNetworking := fun n => n
  fmtOrchestration := fun o => "\x7bName:" ++ o.Name ++ " Status:" ++ o.Status ++ "\x7d"
  transport := scriptedTransport

/-! ## Concrete runs -/

/-- The orchestration `web` as the service reports it, with the given status. -/
def webOrchestration (status : String) : Orchestration :=
  { Name := "/Compute-acme/jdoe/web", DesiredState := "active", Status := status }

/-- The caller's request to create the orchestration `web`. -/
def webInput : CreateOrchestrationInput :=
  { Name := "web", DesiredState := "active" }

/-- A service on which the create request succeeds, the orchestration is first seen
activating and then in `terminal_error`, and the delete request succeeds. -/
def failingCreate : Script :=
  { createReply := Except.ok (webOrchestration "activating")
    getReplies := [Except.ok (webOrchestration "activating"),
      Except.ok (webOrchestration "terminal_error")]
    pollLimit := 5 }

/-- The same service, except that the delete request is refused. -/
def failingCreateAndDelete : Script :=
  { failingCreate with deleteReply := some (GoError.transport false "500: delete refused") }

/-- The text of the error mentions `text`: `text` occurs in it as a contiguous piece. -/
def GoError.mentions (e : GoError) (text : String) : Prop :=
  text.data <:+: e.Error.data

instance (e : GoError) (text : String) : Decidable (e.mentions text) := by
  unfold GoError.mentions
  infer_instance

/-- A service that reports the orchestration `web` in the status `starting`. -/
def startingWorld : Script :=
  { getReplies := [Except.ok (webOrchestration "starting")] }

/-- A service that reports a storage attachment in a state no constant declares. -/
def strangeAttachment : Script :=
  { attachGetReplies :=
      [Except.ok (some { Name := "/Compute-acme/jdoe/att", State := "bogus" })] }

/-- A service on which nothing exists: every get request is answered NotFound. -/
def emptyWorld : Script := {}

/-- A create request for `web` with one instance object that belongs to the
orchestration `web`. -/
def webInputWithObject : CreateOrchestrationInput :=
  { Name := "web", DesiredState := "active"
    Objects := [{ Label := "inst", Orchestration := "web", Typ := "Instance"
                  Template := Template.createInstance { Name := "web/inst" } }] }

/-- An update request for `web` with one instance object that belongs to the
orchestration `web`. -/
def webUpdateWithObject : UpdateOrchestrationInput :=
  { Name := "web", DesiredState := "active"
    Objects := [{ Label := "inst", Orchestration := "web", Typ := "Instance"
                  Template := Template.dict [("name", Dyn.str "web/inst")] }] }

/-- An instance object as the service reports it, with the given label and health. -/
def reportedObject (label : String) (health : Health) : Object :=
  { Label := label, Name := "/Compute-acme/jdoe/web/" ++ label
    Orchestration := "/Compute-acme/jdoe/web", Health := health, Typ := "Instance"
    Template := Template.dict [("name", Dyn.str ("/Compute-acme/jdoe/web/" ++ label))] }

/-- A service that reports `web` active, with one instance object. -/
def activeWithObject : Script :=
  { getReplies := [Except.ok
      { webOrchestration "active" with Objects := [reportedObject "inst" { Status := "active" }] }] }

/-- A service that reports `web` in `terminal_error` with three objects: a healthy one,
then two whose health is `terminal_error`. -/
def failedObjects : Script :=
  { getReplies := [Except.ok
      { webOrchestration "terminal_error" with
        Objects := [reportedObject "lb" { Status := "active" },
          reportedObject "db"
            { Status := "terminal_error", Cause := "error", Detail := "quota exceeded",
              Error := "no capacity" },
          reportedObject "app" { Status := "terminal_error", Cause := "dependency" }] }] }

/-- The caller's request to update the orchestration `web`. -/
def webUpdate : UpdateOrchestrationInput :=
  { Name := "web", DesiredState := "active" }

/-- A service on which the update request succeeds and the orchestration is then seen
activating and in `terminal_error`. -/
def failingUpdate : Script :=
  { updateReply := Except.ok (webOrchestration "active")
    getReplies := [Except.ok (webOrchestration "activating"),
      Except.ok (webOrchestration "terminal_error")]
    pollLimit := 5 }

/-- The caller's request to attach the volume `vol` to the instance `inst`. -/
def attachInput : CreateStorageAttachmentInput :=
  { Index := 1, InstanceName := "inst", StorageVolumeName := "vol" }

/-- The attachment as the service reports it, in the given state. -/
def reportedAttachment (state : String) : StorageAttachmentInfo :=
  { Name := "/Compute-acme/jdoe/att", Index := 1
    InstanceName := "/Compute-acme/jdoe/inst", StorageVolumeName := "/Compute-acme/jdoe/vol"
    State := state }

/-- A service on which the attachment is created, seen attaching once, and then the
get request fails. -/
def failingAttach : Script :=
  { attachReply := Except.ok (some (reportedAttachment "attaching"))
    attachGetReplies := [Except.ok (some (reportedAttachment "attaching")),
      Except.error (GoError.transport false "500: internal error")]
    pollLimit := 5 }

/-- A service on which the attachment is created and stays attaching until the wait
times out after two probes. -/
def stuckAttach : Script :=
  { attachReply := Except.ok (some (reportedAttachment "attaching"))
    attachGetReplies := [Except.ok (some (reportedAttachment "attaching")),
      Except.ok (some (reportedAttachment "attaching")),
      Except.ok (some (reportedAttachment "attached"))]
    pollLimit := 1 }

/-! ## The wait configurations handed to the poll engine -/

/-- Whether a trace entry is a call of the poll engine. -/
def Call.isWaitFor : Call → Bool
  | Call.waitFor _ _ _ => true
  | _ => false

/-- The calls of the poll engine in a trace, in order, each with the description,
poll interval and timeout it is handed. -/
def waitCalls (trace : List Call) : List Call :=
  trace.filter Call.isWaitFor

/-- The invariant the spec states for a wait configuration: a positive poll interval
and a timeout that is not shorter than it. -/
def validWaitSpec (pollInterval timeout : Duration) : Prop :=
  0 < pollInterval ∧ pollInterval ≤ timeout

instance (pollInterval timeout : Duration) : Decidable (validWaitSpec pollInterval timeout) := by
  unfold validWaitSpec
  infer_instance

/-- A service on which the attachment is created and is attached at the first probe. -/
def quickAttach : Script :=
  { attachReply := Except.ok (some (reportedAttachment "attaching"))
    attachGetReplies := [Except.ok (some (reportedAttachment "attached"))]
    pollLimit := 5 }

/-- A service that shows the orchestration `web` activating twice and then active. -/
def activatingThenActive : Script :=
  { createReply := Except.ok (webOrchestration "activating")
    getReplies := [Except.ok (webOrchestration "activating"),
      Except.ok (webOrchestration "activating"), Except.ok (webOrchestration "active")]
    pollLimit := 5 }

/-- A service on which the create request succeeds and the first get request fails
with a server error. -/
def getFails : Script :=
  { createReply := Except.ok (webOrchestration "activating")
    getReplies := [Except.error (GoError.transport false "500: internal error")]
    pollLimit := 5 }

end Compute

/-! # application/application_container_client.go -/

namespace Application

open Compute (GoError Res)

/-- Constant `AUTH_HEADER`. -/
def AUTH_HEADER : String := "Authorization"

/-- Constant `TENANT_HEADER`. -/
def TENANT_HEADER : String := "X-ID-TENANT-NAME"

/-- Go's `http.Header`: a map from header names to the values sent under them. -/
abbrev Header := List (String × List String)

/-- Map read `h[key]`: the values stored under `key`, none when the key is absent. -/
def Header.lookup : Header → String → List String
  | [], _ => []
  | (k, vs) :: rest, key => if k = key then vs else Header.lookup rest key

/-- Map write `h[key] = values`. -/
def Header.put : Header → String → List String → Header
  | [], key, values => [(key, values)]
  | (k, vs) :: rest, key, values =>
    if k = key then (k, values) :: rest else (k, vs) :: Header.put rest key values

/-- Method `Header.Set`: the values under the canonical form of `key` become
`[value]`. `canonical` is `textproto.CanonicalMIMEHeaderKey`. -/
def Header.Set (canonical : String → String) (h : Header) (key value : String) : Header :=
  Header.put h (canonical key) [value]

/-- Method `Header.Add`: `value` is appended to the values under the canonical form of
`key`. -/
def Header.Add (canonical : String → String) (h : Header) (key value : String) : Header :=
  Header.put h (canonical key) (Header.lookup h (canonical key) ++ [value])

/-- Method `Header.Values`: the values under the canonical form of `key`. -/
def Header.Values (canonical : String → String) (h : Header) (key : String) : List String :=
  Header.lookup h (canonical key)

/-- The parts of an `*http.Request` this file touches. -/
structure Request where
  Method : String := ""
  URL : String := ""
  Header : Header := []
  Body : Option String := none
  deriving DecidableEq, Repr

/-- An `*http.Response`. -/
structure Response where
  StatusCode : Int := 0
  Body : String := ""
  deriving DecidableEq, Repr

/-- The `*client.Client` (package `client`, not among the sources): its identity domain
(a `*string`), `BuildRequest`, `ExecuteRequest` over the world `ω`, the rendering `fmt`
gives a request under `%+v`, and the canonical form of header names. -/
structure Client (ω : Type) where
  IdentityDomain : Option String
  BuildRequest : String → String → Option String → Except GoError Request
  ExecuteRequest : Request → ω → Except GoError Response × ω
  fmtRequest : Request → String
  CanonicalMIMEHeaderKey : String → String

/-- Struct `ApplicationClient`; `authHeader` is a `*string`. -/
structure ApplicationClient (ω : Type) where
  client : Client ω
  authHeader : Option String

/-- The state of a run: the world, the strings passed to `DebugLogString` so far, and
the requests handed to `ExecuteRequest` so far. -/
structure AppSt (ω : Type) where
  world : ω
  debugLog : List String
  sent : List Request

/-- Method `executeRequest`. `body` is nil (`none`) or the body to send. Dereferencing
a nil `authHeader` or `IdentityDomain` panics. -/
def executeRequest {ω : Type} (c : ApplicationClient ω) (method path : String)
    (body : Option String) (st : AppSt ω) : Res (Option Response × Option GoError) × AppSt ω :=
  match c.client.BuildRequest method path body with
  | Except.error err => (Res.ok (none, some err), st)
  | Except.ok req =>
    let debugReqString := "HTTP " ++ method ++ " Path (" ++ path ++ ")"
    let req1 : Request :=
      if body.isSome then
        { req with
          Header := (Header.Set c.client.CanonicalMIMEHeaderKey req.Header "Content-Type"
            "application/vnd.com.oracle.oracloud.provisioning.Service+json") }
      else req
    let st1 : AppSt ω := { st with debugLog := st.debugLog ++ [debugReqString] }
    let st2 : AppSt ω :=
      { st1 with debugLog := st1.debugLog ++ ["Req (" ++ c.client.fmtRequest req1 ++ ")"] }
    match c.authHeader with
    | none => (Res.panic "invalid memory address or nil pointer dereference", st2)
    | some auth =>
      let req2 : Request :=
        { req1 with
          Header := Header.Add c.client.CanonicalMIMEHeaderKey req1.Header AUTH_HEADER auth }
      match c.client.IdentityDomain with
      | none => (Res.panic "invalid memory address or nil pointer dereference", st2)
      | some domain =>
        let req3 : Request :=
          { req2 with
            Header := Header.Add c.client.CanonicalMIMEHeaderKey req2.Header TENANT_HEADER domain }
        match c.client.ExecuteRequest req3 st2.world with
        | (Except.error err, w) =>
          (Res.ok (none, some err), { st2 with world := w, sent := st2.sent ++ [req3] })
        | (Except.ok resp, w) =>
          (Res.ok (some resp, none), { st2 with world := w, sent := st2.sent ++ [req3] })

/-- A client for concrete runs: requests are built with no header, a request is
rendered by its method, URL and headers, header names are kept as they are, and the
service answers 200. -/
def demoClient : Client Unit where
  IdentityDomain := some "acme"
  BuildRequest := fun method path body =>
    Except.ok { Method := method, URL := "https://apaas.example" ++ path, Body := body }
  ExecuteRequest := fun _ w => (Except.ok { StatusCode := 200 }, w)
  fmtRequest := fun req =>
    req.Method ++ " " ++ req.URL ++ " " ++
      String.join (req.Header.map fun kv => kv.1 ++ ":" ++ String.join kv.2 ++ ";")
  CanonicalMIMEHeaderKey := fun key => key

end Application

namespace Compute

variable {σ : Type}

/-! ## Traces and the poll loop: general facts -/

theorem deleteCalls_append (a b : List Call) :
    deleteCalls (a ++ b) = deleteCalls a ++ deleteCalls b := by
  simp [deleteCalls]

theorem getRequests_append (a b : List Call) :
    getRequests (a ++ b) = getRequests a ++ getRequests b := by
  induction a with
  | nil => rfl
  | cons x xs ih => cases x <;> simp [getRequests, ih]

theorem attachmentGetRequests_append (a b : List Call) :
    attachmentGetRequests (a ++ b) = attachmentGetRequests a ++ attachmentGetRequests b := by
  induction a with
  | nil => rfl
  | cons x xs ih => cases x <;> simp [attachmentGetRequests, ih]

/-- A property of the run state that the probe and the sleep keep is kept by the
whole poll loop. -/
theorem pollLoop_preserves {L : Type} (c : ComputeClient σ) (d : String)
    (p : Option Duration) (probe : L → St σ → Res (Bool × Option GoError) × L × St σ)
    (P : St σ → Prop) (hprobe : ∀ l st, P st → P (probe l st).2.2)
    (hsleep : ∀ st, P st → P { st with world := c.transport.sleep p st.world }) :
    ∀ n l st, P st → P (pollLoop c d p probe n l st).2.2 := by
  intro n
  induction n with
  | zero =>
    intro l st h
    have hp := hprobe l st h
    unfold pollLoop
    split <;> rename_i heq <;> rw [heq] at hp <;> exact hp
  | succ n ih =>
    intro l st h
    have hp := hprobe l st h
    unfold pollLoop
    split <;> rename_i heq <;> rw [heq] at hp
    · exact hp
    · exact hp
    · exact hp
    · exact ih _ _ (hsleep _ hp)

/-- A probe that never panics gives a poll loop that never panics. -/
theorem pollLoop_no_panic {L : Type} (c : ComputeClient σ) (d : String)
    (p : Option Duration) (probe : L → St σ → Res (Bool × Option GoError) × L × St σ)
    (hprobe : ∀ l st, ∃ r, (probe l st).1 = Res.ok r) :
    ∀ n l st, ∃ e, (pollLoop c d p probe n l st).1 = Res.ok e := by
  intro n
  induction n with
  | zero =>
    intro l st
    obtain ⟨r, hr⟩ := hprobe l st
    unfold pollLoop
    split <;> rename_i heq <;> rw [heq] at hr <;> simp_all
  | succ n ih =>
    intro l st
    obtain ⟨r, hr⟩ := hprobe l st
    unfold pollLoop
    split <;> rename_i heq <;> rw [heq] at hr
    · simp at hr
    · exact ⟨_, rfl⟩
    · exact ⟨_, rfl⟩
    · exact ih _ _

/-! ## Delete requests issued by the orchestration waits -/

theorem getResource_deleteCalls (c : ComputeClient σ) (name : String) (st : St σ) :
    deleteCalls (getResource c name st).2.trace = deleteCalls st.trace := by
  simp [getResource, deleteCalls, Call.isDelete]

theorem GetOrchestration_deleteCalls (c : ComputeClient σ) (input : GetOrchestrationInput)
    (st : St σ) :
    deleteCalls (GetOrchestration c input st).2.trace = deleteCalls st.trace := by
  have h := getResource_deleteCalls c input.Name st
  unfold GetOrchestration
  split <;> rename_i heq <;> rw [heq] at h
  · exact h
  · split <;> exact h

theorem DebugLogString_deleteCalls (m : String) (st : St σ) :
    deleteCalls (DebugLogString m st).trace = deleteCalls st.trace := by
  simp [DebugLogString, St.log, deleteCalls, Call.isDelete]

theorem orchestrationReadyProbe_deleteCalls (c : ComputeClient σ)
    (input : GetOrchestrationInput) (l : Option Orchestration) (st : St σ) :
    deleteCalls (orchestrationReadyProbe c input l st).2.2.trace = deleteCalls st.trace := by
  have h := GetOrchestration_deleteCalls c input st
  unfold orchestrationReadyProbe
  split <;> rename_i heq <;> rw [heq] at h
  · exact h
  · exact h
  · simp only []
    repeat' split
    all_goals simp only [DebugLogString_deleteCalls, h]

theorem orchestrationDeletedProbe_deleteCalls (c : ComputeClient σ)
    (input : DeleteOrchestrationInput) (l : Unit) (st : St σ) :
    deleteCalls (orchestrationDeletedProbe c input l st).2.2.trace = deleteCalls st.trace := by
  have h := getResource_deleteCalls c input.Name st
  unfold orchestrationDeletedProbe
  split <;> rename_i heq <;> rw [heq] at h
  · split <;> exact h
  · simp only []
    repeat' split
    all_goals simp only [DebugLogString_deleteCalls, h]

theorem WaitFor_deleteCalls {L : Type} (c : ComputeClient σ) (d : String)
    (p : Option Duration) (t : Duration)
    (probe : L → St σ → Res (Bool × Option GoError) × L × St σ)
    (hprobe : ∀ l st, deleteCalls (probe l st).2.2.trace = deleteCalls st.trace)
    (l : L) (st : St σ) :
    deleteCalls (WaitFor c d p t probe l st).2.2.trace = deleteCalls st.trace := by
  unfold WaitFor
  refine pollLoop_preserves c d p probe (fun s => deleteCalls s.trace = deleteCalls st.trace)
    (fun l s h => (hprobe l s).trans h) (fun s h => h) _ _ _ ?_
  simp [St.log, deleteCalls, Call.isDelete]

theorem WaitForOrchestrationState_deleteCalls (c : ComputeClient σ)
    (input : GetOrchestrationInput) (t : Duration) (st : St σ) :
    deleteCalls (WaitForOrchestrationState c input t st).2.trace = deleteCalls st.trace := by
  have h := WaitFor_deleteCalls c "orchestration to be ready" none t
    (orchestrationReadyProbe c input) (orchestrationReadyProbe_deleteCalls c input) none st
  unfold WaitForOrchestrationState
  split <;> rename_i heq <;> rw [heq] at h <;> exact h

theorem WaitForOrchestrationDeleted_deleteCalls (c : ComputeClient σ)
    (input : DeleteOrchestrationInput) (t : Duration) (st : St σ) :
    deleteCalls (WaitForOrchestrationDeleted c input t st).2.trace = deleteCalls st.trace := by
  have h := WaitFor_deleteCalls c "orchestration to be deleted" none t
    (orchestrationDeletedProbe c input) (orchestrationDeletedProbe_deleteCalls c input) () st
  unfold WaitForOrchestrationDeleted
  exact h

theorem orchestrationDeletedProbe_no_panic (c : ComputeClient σ)
    (input : DeleteOrchestrationInput) (l : Unit) (st : St σ) :
    ∃ r, (orchestrationDeletedProbe c input l st).1 = Res.ok r := by
  unfold orchestrationDeletedProbe
  split
  · split <;> exact ⟨_, rfl⟩
  · simp only []
    repeat' split
    all_goals exact ⟨_, rfl⟩

/-- `DeleteOrchestration` always returns: nothing in it can panic. -/
theorem DeleteOrchestration_returns (c : ComputeClient σ) (input : DeleteOrchestrationInput)
    (st : St σ) : ∃ e, (DeleteOrchestration c input st).1 = Res.ok e := by
  unfold DeleteOrchestration
  split
  · exact ⟨_, rfl⟩
  · simp only [WaitForOrchestrationDeleted, WaitFor]
    exact pollLoop_no_panic c _ _ _ (orchestrationDeletedProbe_no_panic c _) _ _ _

/-- `DeleteOrchestration` issues exactly one delete request, for `input.Name`. -/
theorem DeleteOrchestration_deleteCalls (c : ComputeClient σ)
    (input : DeleteOrchestrationInput) (st : St σ) :
    deleteCalls (DeleteOrchestration c input st).2.trace =
      deleteCalls st.trace ++ [Call.deleteOrchestration input.Name] := by
  have h : deleteCalls (deleteOrchestration c input.Name st).2.trace =
      deleteCalls st.trace ++ [Call.deleteOrchestration input.Name] := by
    simp [deleteOrchestration, deleteCalls, Call.isDelete]
  unfold DeleteOrchestration
  split <;> rename_i heq <;> rw [heq] at h
  · exact h
  · simp only [WaitForOrchestrationDeleted_deleteCalls]
    exact h

/-! ## CreateOrchestration: rollback -/

/-- A first sample with status `terminal_error` makes `WaitForOrchestrationState`
return that sample together with an error. -/
theorem WaitForOrchestrationState_fails_on_terminal_error (c : ComputeClient σ)
    (input : GetOrchestrationInput) (t : Duration) (st st1 : St σ) (info : Orchestration)
    (hg : GetOrchestration c input (st.log (Call.waitFor "orchestration to be ready" none t)) =
      (Res.ok (Except.ok info), st1))
    (hs : info.Status = OrchestrationStatusError) :
    ∃ E st2, WaitForOrchestrationState c input t st = (Res.ok (info, some E), st2) := by
  have hp : ∃ E st2, orchestrationReadyProbe c input none
      (st.log (Call.waitFor "orchestration to be ready" none t)) =
        (Res.ok (false, some E), some info, st2) := by
    unfold orchestrationReadyProbe
    simp only [hg, hs, if_true]
    split <;> exact ⟨_, _, rfl⟩
  obtain ⟨E, st2, hE⟩ := hp
  refine ⟨E, st2, ?_⟩
  unfold WaitForOrchestrationState WaitFor
  cases c.transport.polls "orchestration to be ready" none t st.world <;>
    simp [pollLoop, hE]

/-- C1: when the create submission succeeds and the convergence wait then returns a
failure `E1` (as it does when a sampled status is `terminal_error`),
`CreateOrchestration` issues exactly one delete request, for the name the server
returned, returns no orchestration, and, when that delete succeeds, returns the error
`Error creating orchestration <name>: <E1>`. -/
theorem CreateOrchestration_rollback (c : ComputeClient σ) (input : CreateOrchestrationInput)
    (st st1 st2 : St σ) (objects : List Object) (created info : Orchestration) (E1 : GoError)
    (hq : qualifyCreateObjects c input.Objects = Res.ok objects)
    (hc : createResource c
      { input with Name := c.getQualifiedName input.Name, Objects := objects } st =
        (Except.ok created, st1))
    (hw : WaitForOrchestrationState c { Name := created.Name }
      (if input.Timeout = 0 then WaitForOrchestrationActiveTimeout else input.Timeout) st1 =
        (Res.ok (info, some E1), st2)) :
    ∃ err, (CreateOrchestration c input st).1 = Res.ok (none, some err) ∧
      deleteCalls (CreateOrchestration c input st).2.trace =
        deleteCalls st.trace ++ [Call.deleteOrchestration created.Name] ∧
      ((DeleteOrchestration c { Name := created.Name } st2).1 = Res.ok none →
        err = GoError.errorf
          ("Error creating orchestration " ++ created.Name ++ ": " ++ E1.Error)) := by
  have hd1 : deleteCalls st1.trace = deleteCalls st.trace := by
    have := congrArg (fun r => deleteCalls r.2.trace) hc
    simpa [createResource, deleteCalls, Call.isDelete] using this.symm
  have hd2 : deleteCalls st2.trace = deleteCalls st.trace := by
    have := WaitForOrchestrationState_deleteCalls c { Name := created.Name }
      (if input.Timeout = 0 then WaitForOrchestrationActiveTimeout else input.Timeout) st1
    rw [hw] at this
    exact this.trans hd1
  have hd3 := DeleteOrchestration_deleteCalls c { Name := created.Name } st2
  obtain ⟨e, he⟩ := DeleteOrchestration_returns c { Name := created.Name } st2
  unfold CreateOrchestration
  simp only [hq, hc]
  have hT : ∀ (a b : CreateOrchestrationInput),
      (if input.Timeout = 0 then a else b).Timeout =
        if input.Timeout = 0 then a.Timeout else b.Timeout := by
    intro a b; split <;> rfl
  simp only [hT, hw]
  cases e with
  | none =>
    refine ⟨GoError.errorf
      ("Error creating orchestration " ++ created.Name ++ ": " ++ E1.Error), ?_, ?_, ?_⟩
    · split <;> rename_i heq <;> rw [heq] at he <;> simp_all
    · split <;> rename_i heq <;> rw [heq] at hd3 <;> simp_all
    · intro _; rfl
  | some e2 =>
    refine ⟨GoError.errorf
      ("Error deleting orchestration " ++ created.Name ++ ": " ++ e2.Error), ?_, ?_, ?_⟩
    · split <;> rename_i heq <;> rw [heq] at he <;> simp_all
    · split <;> rename_i heq <;> rw [heq] at hd3 <;> simp_all
    · intro h; rw [he] at h; simp at h

/-- C1, a concrete run: the service of `failingCreate` shows `activating` and then
`terminal_error`; one delete request for the returned name follows and the error
carries the wait failure. -/
theorem CreateOrchestration_rollback_witness :
    ∃ err, (CreateOrchestration acmeClient webInput ⟨failingCreate, []⟩).1 =
        Res.ok (none, some err) ∧
      deleteCalls (CreateOrchestration acmeClient webInput ⟨failingCreate, []⟩).2.trace =
        [] ++ [Call.deleteOrchestration "/Compute-acme/jdoe/web"] ∧
      ((DeleteOrchestration acmeClient { Name := "/Compute-acme/jdoe/web" }
          (WaitForOrchestrationState acmeClient { Name := "/Compute-acme/jdoe/web" }
            WaitForOrchestrationActiveTimeout
            (createResource acmeClient { webInput with Name := "/Compute-acme/jdoe/web" }
              ⟨failingCreate, []⟩).2).2).1 = Res.ok none →
        err = GoError.errorf ("Error creating orchestration /Compute-acme/jdoe/web: " ++
          "Error initializing orchestration: &\x7bName:web Status:terminal_error\x7d")) :=
  CreateOrchestration_rollback acmeClient webInput ⟨failingCreate, []⟩ _ _ []
    (webOrchestration "activating")
    { webOrchestration "terminal_error" with Name := "web" }
    (GoError.errorf "Error initializing orchestration: &\x7bName:web Status:terminal_error\x7d")
    rfl rfl rfl

/-- C2, as stated, fails: on the service of `failingCreateAndDelete` the wait fails with
`Error initializing orchestration: ...`, the compensating delete fails with
`500: delete refused`, and the error `CreateOrchestration` returns mentions the
deletion failure only. -/
theorem CreateOrchestration_rollback_failure_drops_wait_error :
    (WaitForOrchestrationState acmeClient { Name := "/Compute-acme/jdoe/web" }
        WaitForOrchestrationActiveTimeout
        (createResource acmeClient { webInput with Name := "/Compute-acme/jdoe/web" }
          ⟨failingCreateAndDelete, []⟩).2).1 =
      Res.ok ({ webOrchestration "terminal_error" with Name := "web" },
        some (GoError.errorf
          "Error initializing orchestration: &\x7bName:web Status:terminal_error\x7d")) ∧
    (CreateOrchestration acmeClient webInput ⟨failingCreateAndDelete, []⟩).1 =
      Res.ok (none, some (GoError.errorf
        "Error deleting orchestration /Compute-acme/jdoe/web: 500: delete refused")) ∧
    ¬ (GoError.errorf
        "Error deleting orchestration /Compute-acme/jdoe/web: 500: delete refused").mentions
      "Error initializing orchestration: &\x7bName:web Status:terminal_error\x7d" :=
  ⟨rfl, rfl, by decide⟩

/-- C2, amended: when the wait fails with `E1` and the compensating
`DeleteOrchestration` then fails with `E2`, `CreateOrchestration` returns no
orchestration and the error `Error deleting orchestration <name>: <E2>`, whatever `E1`
is. -/
theorem CreateOrchestration_rollback_failure (c : ComputeClient σ)
    (input : CreateOrchestrationInput) (st st1 st2 st3 : St σ) (objects : List Object)
    (created info : Orchestration) (E1 E2 : GoError)
    (hq : qualifyCreateObjects c input.Objects = Res.ok objects)
    (hc : createResource c
      { input with Name := c.getQualifiedName input.Name, Objects := objects } st =
        (Except.ok created, st1))
    (hw : WaitForOrchestrationState c { Name := created.Name }
      (if input.Timeout = 0 then WaitForOrchestrationActiveTimeout else input.Timeout) st1 =
        (Res.ok (info, some E1), st2))
    (hd : DeleteOrchestration c { Name := created.Name } st2 = (Res.ok (some E2), st3)) :
    CreateOrchestration c input st =
      (Res.ok (none, some (GoError.errorf
        ("Error deleting orchestration " ++ created.Name ++ ": " ++ E2.Error))), st3) := by
  have hT : ∀ (a b : CreateOrchestrationInput),
      (if input.Timeout = 0 then a else b).Timeout =
        if input.Timeout = 0 then a.Timeout else b.Timeout := by
    intro a b; split <;> rfl
  unfold CreateOrchestration
  simp only [hq, hc, hT, hw, hd]

/-- C2, amended, on the service of `failingCreateAndDelete`. -/
theorem CreateOrchestration_rollback_failure_witness :
    CreateOrchestration acmeClient webInput ⟨failingCreateAndDelete, []⟩ =
      (Res.ok (none, some (GoError.errorf
        ("Error deleting orchestration " ++ (webOrchestration "activating").Name ++ ": " ++
          (GoError.transport false "500: delete refused").Error))),
        (DeleteOrchestration acmeClient { Name := "/Compute-acme/jdoe/web" }
          (WaitForOrchestrationState acmeClient { Name := "/Compute-acme/jdoe/web" }
            WaitForOrchestrationActiveTimeout
            (createResource acmeClient { webInput with Name := "/Compute-acme/jdoe/web" }
              ⟨failingCreateAndDelete, []⟩).2).2).2) :=
  CreateOrchestration_rollback_failure acmeClient webInput ⟨failingCreateAndDelete, []⟩ _ _ _ []
    (webOrchestration "activating")
    { webOrchestration "terminal_error" with Name := "web" }
    (GoError.errorf "Error initializing orchestration: &\x7bName:web Status:terminal_error\x7d")
    (GoError.transport false "500: delete refused")
    rfl rfl rfl rfl

/-! ## Fail-closed classification -/

/-- C3: a sampled orchestration whose status is outside the mapping of the wait makes
the probe fail with `Unknown orchestration state: <status>, erroring`, in the ready
wait (mapping: `terminal_error`, the sample's own desired state, `activating`,
`stopping`, `suspending`, `deactivating`, `suspended`) and in the delete wait (mapping:
`terminal_error`, `stopping`, `deleting`, `active`); the probe does not report "keep
waiting". -/
theorem orchestration_probes_fail_closed (c : ComputeClient σ)
    (input : GetOrchestrationInput) (dinput : DeleteOrchestrationInput)
    (l : Option Orchestration) (st st1 dst dst1 : St σ) (info dinfo : Orchestration)
    (hg : GetOrchestration c input st = (Res.ok (Except.ok info), st1))
    (hs : info.Status ∉ [OrchestrationStatusError, info.DesiredState,
      OrchestrationStatusActivating, OrchestrationStatusStopping,
      OrchestrationStatusSuspending, OrchestrationStatusDeactivating,
      OrchestrationStatusSuspended])
    (hdg : getResource c dinput.Name dst = (Except.ok dinfo, dst1))
    (hds : dinfo.Status ∉ [OrchestrationStatusError, OrchestrationStatusStopping,
      OrchestrationStatusDeleting, OrchestrationStatusActive]) :
    ((orchestrationReadyProbe c input l st).1 = Res.ok (false, some (GoError.errorf
        ("Unknown orchestration state: " ++ info.Status ++ ", erroring"))) ∧
      (orchestrationReadyProbe c input l st).1 ≠ Res.ok (false, none)) ∧
    ((orchestrationDeletedProbe c dinput () dst).1 = Res.ok (false, some (GoError.errorf
        ("Unknown orchestration state: " ++ dinfo.Status ++ ", erroring"))) ∧
      (orchestrationDeletedProbe c dinput () dst).1 ≠ Res.ok (false, none)) := by
  simp only [List.mem_cons, List.mem_singleton, List.not_mem_nil, not_or, or_false] at hs hds
  obtain ⟨h1, h2, h3, h4, h5, h6, h7⟩ := hs
  obtain ⟨d1, d2, d3, d4⟩ := hds
  have hr : (orchestrationReadyProbe c input l st).1 = Res.ok (false, some (GoError.errorf
      ("Unknown orchestration state: " ++ info.Status ++ ", erroring"))) := by
    unfold orchestrationReadyProbe
    simp only [hg, h1, h2, h3, h4, h5, h6, h7, if_false]
  have hd : (orchestrationDeletedProbe c dinput () dst).1 = Res.ok (false, some (GoError.errorf
      ("Unknown orchestration state: " ++ dinfo.Status ++ ", erroring"))) := by
    unfold orchestrationDeletedProbe
    simp only [hdg, d1, d2, d3, d4, if_false]
  refine ⟨⟨hr, ?_⟩, ⟨hd, ?_⟩⟩
  · rw [hr]; simp
  · rw [hd]; simp

/-- C3, a concrete sample: the declared status `starting` is in neither mapping. -/
theorem orchestration_probes_fail_closed_witness :
    ((orchestrationReadyProbe acmeClient { Name := "web" } none ⟨startingWorld, []⟩).1 =
        Res.ok (false, some (GoError.errorf
          ("Unknown orchestration state: " ++ "starting" ++ ", erroring"))) ∧
      (orchestrationReadyProbe acmeClient { Name := "web" } none ⟨startingWorld, []⟩).1 ≠
        Res.ok (false, none)) ∧
    ((orchestrationDeletedProbe acmeClient { Name := "web" } () ⟨startingWorld, []⟩).1 =
        Res.ok (false, some (GoError.errorf
          ("Unknown orchestration state: " ++ "starting" ++ ", erroring"))) ∧
      (orchestrationDeletedProbe acmeClient { Name := "web" } () ⟨startingWorld, []⟩).1 ≠
        Res.ok (false, none)) :=
  orchestration_probes_fail_closed acmeClient { Name := "web" } { Name := "web" } none
    ⟨startingWorld, []⟩ _ ⟨startingWorld, []⟩ _
    { webOrchestration "starting" with Name := "web" } (webOrchestration "starting")
    rfl (by decide) rfl (by decide)

/-- C4, as stated, fails: a sampled storage attachment in the undeclared state `bogus`
makes the attach probe report "keep waiting" (not converged, no error). -/
theorem attachProbe_unknown_state_keeps_waiting :
    GetStorageAttachment acmeClient { Name := "att" } ⟨strangeAttachment, []⟩ =
      (Res.ok (Except.ok { Name := "att", State := "bogus" }),
        ⟨{}, [Call.getAttachment "att"]⟩) ∧
    "bogus" ∉ [Attaching, Attached, Detaching, Unavailable, Unknown] ∧
    (attachProbe acmeClient "att" none ⟨strangeAttachment, []⟩).1 = Res.ok (false, none) :=
  ⟨rfl, by decide, rfl⟩

/-- C4, amended: for every sampled storage attachment the attach probe reports
converged when the state is `attached` and "keep waiting", with no error, for every
other state, declared or not; it never reports a failure for a sample. -/
theorem attachProbe_classification (c : ComputeClient σ) (name : String)
    (l : Option StorageAttachmentInfo) (st st1 : St σ) (info : StorageAttachmentInfo)
    (hg : GetStorageAttachment c { Name := name } st = (Res.ok (Except.ok info), st1)) :
    (attachProbe c name l st).1 = Res.ok (decide (info.State = Attached), none) := by
  unfold attachProbe
  simp only [hg]
  split <;> rename_i h <;> simp [h]

/-- C4, amended, on the sample in state `bogus`. -/
theorem attachProbe_classification_witness :
    (attachProbe acmeClient "att" none ⟨strangeAttachment, []⟩).1 =
      Res.ok (decide ("bogus" = Attached), none) :=
  attachProbe_classification acmeClient "att" none ⟨strangeAttachment, []⟩ _
    { Name := "att", State := "bogus" } rfl

/-! ## Delete waits and NotFound -/

/-- C5: in both delete waits, a poll iteration whose Get fails with a NotFound error
makes the probe report converged with no error, and the poll loop then returns
success in the state that Get left, with no further request; a Get failure that is
not NotFound makes the probe, and the loop, report that same error. -/
theorem delete_waits_converge_on_NotFound (c : ComputeClient σ)
    (dinput : DeleteOrchestrationInput) (name d ad : String) (p ap : Option Duration)
    (n an : Nat) (st st1 ast ast1 : St σ) (e ae : GoError)
    (hg : getResource c dinput.Name st = (Except.error e, st1))
    (hag : getAttachmentResource c name ast = (Except.error ae, ast1)) :
    (orchestrationDeletedProbe c dinput () st =
        (if WasNotFoundError e then Res.ok (true, none) else Res.ok (false, some e), (), st1) ∧
      pollLoop c d p (orchestrationDeletedProbe c dinput) n () st =
        (if WasNotFoundError e then Res.ok none else Res.ok (some e), (), st1) ∧
      getRequests st1.trace = getRequests st.trace ++ [dinput.Name]) ∧
    (attachmentDeletedProbe c name () ast =
        (if WasNotFoundError ae then Res.ok (true, none) else Res.ok (false, some ae), (), ast1) ∧
      pollLoop c ad ap (attachmentDeletedProbe c name) an () ast =
        (if WasNotFoundError ae then Res.ok none else Res.ok (some ae), (), ast1) ∧
      attachmentGetRequests ast1.trace = attachmentGetRequests ast.trace ++ [name]) := by
  have hp : orchestrationDeletedProbe c dinput () st =
      (if WasNotFoundError e then Res.ok (true, none) else Res.ok (false, some e), (), st1) := by
    unfold orchestrationDeletedProbe
    simp only [hg]
    split <;> rfl
  have hap : attachmentDeletedProbe c name () ast =
      (if WasNotFoundError ae then Res.ok (true, none) else Res.ok (false, some ae), (), ast1) := by
    unfold attachmentDeletedProbe GetStorageAttachment
    simp only [hag]
    split <;> rfl
  refine ⟨⟨hp, ?_, ?_⟩, ⟨hap, ?_, ?_⟩⟩
  · by_cases hnf : WasNotFoundError e = true <;> simp only [hnf, if_true, if_false] at hp ⊢ <;>
      cases n <;> simp [pollLoop, hp]
  · have := congrArg (fun r => getRequests r.2.trace) hg
    simpa [getResource, getRequests_append, getRequests] using this.symm
  · by_cases hnf : WasNotFoundError ae = true <;> simp only [hnf, if_true, if_false] at hap ⊢ <;>
      cases an <;> simp [pollLoop, hap]
  · have := congrArg (fun r => attachmentGetRequests r.2.trace) hag
    simpa [getAttachmentResource, attachmentGetRequests_append, attachmentGetRequests]
      using this.symm

/-- C5, a concrete run: on the empty service both Gets are answered NotFound and both
waits end at once with success. -/
theorem delete_waits_converge_on_NotFound_witness :
    (orchestrationDeletedProbe acmeClient { Name := "web" } () ⟨emptyWorld, []⟩ =
        (Res.ok (true, none), (), ⟨emptyWorld, [Call.getOrchestration "web"]⟩) ∧
      pollLoop acmeClient "orchestration to be deleted" none
          (orchestrationDeletedProbe acmeClient { Name := "web" }) 7 () ⟨emptyWorld, []⟩ =
        (Res.ok none, (), ⟨emptyWorld, [Call.getOrchestration "web"]⟩) ∧
      getRequests [Call.getOrchestration "web"] = getRequests [] ++ ["web"]) ∧
    (attachmentDeletedProbe acmeClient "att" () ⟨emptyWorld, []⟩ =
        (Res.ok (true, none), (), ⟨emptyWorld, [Call.getAttachment "att"]⟩) ∧
      pollLoop acmeClient "storage attachment to be deleted" (some Second)
          (attachmentDeletedProbe acmeClient "att") 7 () ⟨emptyWorld, []⟩ =
        (Res.ok none, (), ⟨emptyWorld, [Call.getAttachment "att"]⟩) ∧
      attachmentGetRequests [Call.getAttachment "att"] = attachmentGetRequests [] ++ ["att"]) :=
  delete_waits_converge_on_NotFound acmeClient { Name := "web" } "att"
    "orchestration to be deleted" "storage attachment to be deleted" none (some Second) 7 7
    ⟨emptyWorld, []⟩ ⟨emptyWorld, [Call.getOrchestration "web"]⟩
    ⟨emptyWorld, []⟩ ⟨emptyWorld, [Call.getAttachment "att"]⟩
    (GoError.transport true "404: not found") (GoError.transport true "404: not found")
    rfl rfl

/-! ## Qualification on the wire and in results -/

theorem Res.andThen_eq_ok {α β : Type} (r : Res α) (f : α → Res β) (b : β)
    (h : r.andThen f = Res.ok b) : ∃ a, r = Res.ok a ∧ f a = Res.ok b := by
  cases r with
  | ok a => exact ⟨a, rfl, h⟩
  | panic m => simp [Res.andThen] at h

/-- Whatever the qualifier, the loop of `CreateOrchestration` leaves the
`Orchestration` field of every object as the caller gave it. -/
theorem qualifyCreateObjects_orchestration (c : ComputeClient σ) :
    ∀ (objects result : List Object), qualifyCreateObjects c objects = Res.ok result →
      result.map (fun o => o.Orchestration) = objects.map (fun o => o.Orchestration) := by
  intro objects
  induction objects with
  | nil =>
    intro result h
    simp only [qualifyCreateObjects, Res.ok.injEq] at h
    subst h; rfl
  | cons x xs ih =>
    intro result h
    unfold qualifyCreateObjects at h
    simp only [] at h
    split at h
    · split at h
      · obtain ⟨rest, hrest, hres⟩ := Res.andThen_eq_ok _ _ _ h
        simp only [Res.ok.injEq] at hres
        subst hres
        simp [ih rest hrest]
      · simp at h
    · obtain ⟨rest, hrest, hres⟩ := Res.andThen_eq_ok _ _ _ h
      simp only [Res.ok.injEq] at hres
      subst hres
      simp [ih rest hrest]

/-- Whatever the qualifier, the loop of `UpdateOrchestration` leaves the
`Orchestration` field of every object as the caller gave it. -/
theorem qualifyUpdateObjects_orchestration (c : ComputeClient σ) :
    ∀ (objects result : List Object), qualifyUpdateObjects c objects = Res.ok result →
      result.map (fun o => o.Orchestration) = objects.map (fun o => o.Orchestration) := by
  intro objects
  induction objects with
  | nil =>
    intro result h
    simp only [qualifyUpdateObjects, Res.ok.injEq] at h
    subst h; rfl
  | cons x xs ih =>
    intro result h
    unfold qualifyUpdateObjects at h
    simp only [] at h
    split at h
    · split at h
      · split at h
        · obtain ⟨rest, hrest, hres⟩ := Res.andThen_eq_ok _ _ _ h
          simp only [Res.ok.injEq] at hres
          subst hres
          simp [ih rest hrest]
        · simp at h
      · simp at h
    · obtain ⟨rest, hrest, hres⟩ := Res.andThen_eq_ok _ _ _ h
      simp only [Res.ok.injEq] at hres
      subst hres
      simp [ih rest hrest]

/-- Whatever the unqualifier, the loop of `success` leaves the `Orchestration` field of
every object as the server sent it. -/
theorem successObjects_orchestration (c : ComputeClient σ) :
    ∀ (objects result : List Object), successObjects c objects = Res.ok result →
      result.map (fun o => o.Orchestration) = objects.map (fun o => o.Orchestration) := by
  intro objects
  induction objects with
  | nil =>
    intro result h
    simp only [successObjects, Res.ok.injEq] at h
    subst h; rfl
  | cons x xs ih =>
    intro result h
    unfold successObjects at h
    simp only [] at h
    split at h
    · split at h
      · split at h
        · obtain ⟨rest, hrest, hres⟩ := Res.andThen_eq_ok _ _ _ h
          simp only [Res.ok.injEq] at hres
          subst hres
          simp [ih rest hrest]
        · simp at h
      · simp at h
    · obtain ⟨rest, hrest, hres⟩ := Res.andThen_eq_ok _ _ _ h
      simp only [Res.ok.injEq] at hres
      subst hres
      simp [ih rest hrest]

/-- C6, the code at a failing input: the bodies that `CreateOrchestration` and
`UpdateOrchestration` hand to the transport carry the qualified name of the
orchestration, but the `Orchestration` field of the object is still the caller's
`web`, while its qualified form is `/Compute-acme/jdoe/web`. -/
theorem orchestration_bodies_keep_object_orchestration_unqualified :
    (createBodies (CreateOrchestration acmeClient webInputWithObject
        ⟨failingCreate, []⟩).2.trace).map
        (fun body => (body.Name, body.Objects.map fun o => o.Orchestration)) =
      [("/Compute-acme/jdoe/web", ["web"])] ∧
    (updateBodies (UpdateOrchestration acmeClient webUpdateWithObject
        ⟨failingCreate, []⟩).2.trace).map
        (fun body => (body.Name, body.Objects.map fun o => o.Orchestration)) =
      [("/Compute-acme/jdoe/web", ["web"])] ∧
    acmeClient.getQualifiedName "web" = "/Compute-acme/jdoe/web" :=
  ⟨by decide, by decide, by decide⟩

/-- C7, the code at a failing input: for a reported orchestration with one instance
object, `GetOrchestration` unqualifies the name and the template name, but the
`Orchestration` field of the object comes back as the server sent it, while its
unqualified form is `web`. -/
theorem GetOrchestration_keeps_object_orchestration_qualified :
    (GetOrchestration acmeClient { Name := "web" } ⟨activeWithObject, []⟩).1 =
      Res.ok (Except.ok
        { webOrchestration "active" with
          Name := "web"
          Objects := [{ reportedObject "inst" { Status := "active" } with
            Orchestration := "/Compute-acme/jdoe/web"
            Template := Template.dict [("name", Dyn.str "web/inst")] }] }) ∧
    acmeClient.getUnqualifiedName "/Compute-acme/jdoe/web" = "web" :=
  ⟨rfl, by decide⟩

/-! ## The most specific failure cause -/

theorem firstFailedObject_first (pre post : List Object) (object : Object)
    (hpre : ∀ o ∈ pre, o.Health.Status ≠ OrchestrationStatusError)
    (ho : object.Health.Status = OrchestrationStatusError) :
    firstFailedObject (pre ++ object :: post) = some object := by
  induction pre with
  | nil => simp [firstFailedObject, ho]
  | cons x xs ih =>
    have hx : x.Health.Status ≠ OrchestrationStatusError := hpre x (List.mem_cons_self _ _)
    have hxs : ∀ o ∈ xs, o.Health.Status ≠ OrchestrationStatusError :=
      fun o h => hpre o (List.mem_cons_of_mem _ h)
    simp [firstFailedObject, hx, ih hxs]

theorem firstFailedObject_none (objects : List Object)
    (h : ∀ o ∈ objects, o.Health.Status ≠ OrchestrationStatusError) :
    firstFailedObject objects = none := by
  induction objects with
  | nil => rfl
  | cons x xs ih =>
    have hx : x.Health.Status ≠ OrchestrationStatusError := h x (List.mem_cons_self _ _)
    have hxs : ∀ o ∈ xs, o.Health.Status ≠ OrchestrationStatusError :=
      fun o ho => h o (List.mem_cons_of_mem _ ho)
    simp [firstFailedObject, hx, ih hxs]

theorem firstFailedObject_some (objects : List Object) (o : Object) (hmem : o ∈ objects)
    (ho : o.Health.Status = OrchestrationStatusError) :
    ∃ object, firstFailedObject objects = some object := by
  induction objects with
  | nil => simp at hmem
  | cons x xs ih =>
    by_cases hx : x.Health.Status = OrchestrationStatusError
    · exact ⟨x, by simp [firstFailedObject, hx]⟩
    · rcases List.mem_cons.mp hmem with h | h
      · exact absurd (h ▸ ho) hx
      · obtain ⟨object, hobj⟩ := ih h
        exact ⟨object, by simp [firstFailedObject, hx, hobj]⟩

theorem creating_ne_initializing (x y : String) :
    "Error creating instance " ++ x ≠ "Error initializing orchestration: &" ++ y := by
  intro h
  have h1 := congrArg String.data h
  rw [String.data_append, String.data_append] at h1
  have h2 := congrArg (fun l => l.get? 6) h1
  simp at h2

/-- C8: for a sampled orchestration with status `terminal_error` the ready probe
fails. If an object has health status `terminal_error`, the error is
`Error creating instance <name>: <health>` for the first such object in list order,
with the status, cause, detail and error of its health; if no object has that health
status, the error is the generic `Error initializing orchestration: ...`, and the
generic error is returned in that case only. -/
theorem ready_probe_most_specific_cause (c : ComputeClient σ)
    (input : GetOrchestrationInput) (l : Option Orchestration) (st st1 : St σ)
    (info : Orchestration)
    (hg : GetOrchestration c input st = (Res.ok (Except.ok info), st1))
    (hs : info.Status = OrchestrationStatusError) :
    (∃ err, (orchestrationReadyProbe c input l st).1 = Res.ok (false, some err)) ∧
    (∀ (pre post : List Object) (object : Object),
      info.Objects = pre ++ object :: post →
      (∀ o ∈ pre, o.Health.Status ≠ OrchestrationStatusError) →
      object.Health.Status = OrchestrationStatusError →
      (orchestrationReadyProbe c input l st).1 = Res.ok (false, some (GoError.errorf
        ("Error creating instance " ++ object.Name ++ ": " ++
          ("\x7bStatus:" ++ object.Health.Status ++ " Cause:" ++ object.Health.Cause ++
            " Detail:" ++ object.Health.Detail ++ " Error:" ++ object.Health.Error ++
            "\x7d"))))) ∧
    ((∀ o ∈ info.Objects, o.Health.Status ≠ OrchestrationStatusError) ↔
      (orchestrationReadyProbe c input l st).1 = Res.ok (false, some (GoError.errorf
        ("Error initializing orchestration: &" ++ c.fmtOrchestration info)))) := by
  refine ⟨?_, ?_, ⟨?_, ?_⟩⟩
  · unfold orchestrationReadyProbe
    simp only [hg, hs, if_true]
    split <;> exact ⟨_, rfl⟩
  · intro pre post object hobjs hpre ho
    have hf := firstFailedObject_first pre post object hpre ho
    rw [← hobjs] at hf
    unfold orchestrationReadyProbe
    simp only [hg, hs, if_true, hf, fmtHealth]
  · intro hall
    have hf := firstFailedObject_none info.Objects hall
    unfold orchestrationReadyProbe
    simp only [hg, hs, if_true, hf]
  · intro hres o hmem ho
    obtain ⟨object, hf⟩ := firstFailedObject_some info.Objects o hmem ho
    unfold orchestrationReadyProbe at hres
    simp only [hg, hs, if_true, hf] at hres
    have hmsg := GoError.errorf.inj (Option.some.inj (Prod.mk.inj (Res.ok.inj hres)).2)
    rw [String.append_assoc, String.append_assoc] at hmsg
    exact creating_ne_initializing _ _ hmsg

/-- C8, a concrete sample: of the objects `lb` (healthy), `db` and `app` (both in
`terminal_error`), the error names `db` and carries its health. -/
theorem ready_probe_most_specific_cause_witness :
    (orchestrationReadyProbe acmeClient { Name := "web" } none ⟨failedObjects, []⟩).1 =
      Res.ok (false, some (GoError.errorf
        ("Error creating instance " ++ "/Compute-acme/jdoe/web/db" ++ ": " ++
          ("\x7bStatus:" ++ "terminal_error" ++ " Cause:" ++ "error" ++
            " Detail:" ++ "quota exceeded" ++ " Error:" ++ "no capacity" ++ "\x7d")))) :=
  (ready_probe_most_specific_cause acmeClient { Name := "web" } none ⟨failedObjects, []⟩
    ⟨{}, [Call.getOrchestration "web"]⟩
    { webOrchestration "terminal_error" with
      Name := "web"
      Objects := [
        { reportedObject "lb" { Status := "active" } with
          Template := Template.dict [("name", Dyn.str "web/lb")] },
        { reportedObject "db"
            { Status := "terminal_error", Cause := "error", Detail := "quota exceeded",
              Error := "no capacity" } with
          Template := Template.dict [("name", Dyn.str "web/db")] },
        { reportedObject "app" { Status := "terminal_error", Cause := "dependency" } with
          Template := Template.dict [("name", Dyn.str "web/app")] }] }
    rfl rfl).2.1
    [{ reportedObject "lb" { Status := "active" } with
        Template := Template.dict [("name", Dyn.str "web/lb")] }]
    [{ reportedObject "app" { Status := "terminal_error", Cause := "dependency" } with
        Template := Template.dict [("name", Dyn.str "web/app")] }]
    { reportedObject "db"
        { Status := "terminal_error", Cause := "error", Detail := "quota exceeded",
          Error := "no capacity" } with
      Template := Template.dict [("name", Dyn.str "web/db")] }
    rfl (by decide) rfl

/-! ## UpdateOrchestration: no rollback -/

/-- C9: when the update submission succeeds and the convergence wait returns the
failure `E`, `UpdateOrchestration` returns no orchestration together with exactly
`E`, and the trace has no delete request that it did not have before the call. -/
theorem UpdateOrchestration_no_rollback (c : ComputeClient σ)
    (input : UpdateOrchestrationInput) (st st1 st2 : St σ) (objects : List Object)
    (updated info : Orchestration) (E : GoError)
    (hq : qualifyUpdateObjects c input.Objects = Res.ok objects)
    (hu : updateResource c (c.getQualifiedName input.Name)
      { input with Name := c.getQualifiedName input.Name, Objects := objects } st =
        (Except.ok updated, st1))
    (hw : WaitForOrchestrationState c { Name := updated.Name }
      (if input.Timeout = 0 then WaitForOrchestrationActiveTimeout else input.Timeout) st1 =
        (Res.ok (info, some E), st2)) :
    UpdateOrchestration c input st = (Res.ok (none, some E), st2) ∧
    deleteCalls st2.trace = deleteCalls st.trace := by
  have hT : ∀ (a b : UpdateOrchestrationInput),
      (if input.Timeout = 0 then a else b).Timeout =
        if input.Timeout = 0 then a.Timeout else b.Timeout := by
    intro a b; split <;> rfl
  have hd1 : deleteCalls st1.trace = deleteCalls st.trace := by
    have := congrArg (fun r => deleteCalls r.2.trace) hu
    simpa [updateResource, deleteCalls, Call.isDelete] using this.symm
  have hd2 : deleteCalls st2.trace = deleteCalls st.trace := by
    have := WaitForOrchestrationState_deleteCalls c { Name := updated.Name }
      (if input.Timeout = 0 then WaitForOrchestrationActiveTimeout else input.Timeout) st1
    rw [hw] at this
    exact this.trans hd1
  refine ⟨?_, hd2⟩
  unfold UpdateOrchestration
  simp only [hq, hu, hT, hw]

/-- C9, a concrete run: on the service of `failingUpdate` the wait fails on
`terminal_error`; that error is returned as it is and no delete request is made. -/
theorem UpdateOrchestration_no_rollback_witness :
    UpdateOrchestration acmeClient webUpdate ⟨failingUpdate, []⟩ =
      (Res.ok (none, some (GoError.errorf
        "Error initializing orchestration: &\x7bName:web Status:terminal_error\x7d")),
        (WaitForOrchestrationState acmeClient { Name := "/Compute-acme/jdoe/web" }
          WaitForOrchestrationActiveTimeout
          (updateResource acmeClient "/Compute-acme/jdoe/web"
            { webUpdate with Name := "/Compute-acme/jdoe/web" } ⟨failingUpdate, []⟩).2).2) ∧
    deleteCalls (WaitForOrchestrationState acmeClient { Name := "/Compute-acme/jdoe/web" }
        WaitForOrchestrationActiveTimeout
        (updateResource acmeClient "/Compute-acme/jdoe/web"
          { webUpdate with Name := "/Compute-acme/jdoe/web" } ⟨failingUpdate, []⟩).2).2.trace =
      deleteCalls [] :=
  UpdateOrchestration_no_rollback acmeClient webUpdate ⟨failingUpdate, []⟩ _ _ []
    (webOrchestration "active")
    { webOrchestration "terminal_error" with Name := "web" }
    (GoError.errorf "Error initializing orchestration: &\x7bName:web Status:terminal_error\x7d")
    rfl rfl rfl

/-! ## CreateStorageAttachment: no rollback -/

/-- The variables a probe captures are as they were when the poll loop ends without
success, provided the probe changes them only when it reports converged. -/
theorem pollLoop_locals {L : Type} (c : ComputeClient σ) (d : String) (p : Option Duration)
    (probe : L → St σ → Res (Bool × Option GoError) × L × St σ)
    (hprobe : ∀ l st, (probe l st).1 = Res.ok (true, none) ∨ (probe l st).2.1 = l) :
    ∀ n l st, (pollLoop c d p probe n l st).1 = Res.ok none ∨
      (pollLoop c d p probe n l st).2.1 = l := by
  intro n
  induction n with
  | zero =>
    intro l st
    have hp := hprobe l st
    unfold pollLoop
    split <;> rename_i heq <;> rw [heq] at hp <;> simp_all
  | succ n ih =>
    intro l st
    have hp := hprobe l st
    unfold pollLoop
    split <;> rename_i heq <;> rw [heq] at hp
    · simp_all
    · simp_all
    · simp_all
    · rename_i l1 st1
      have hl : l1 = l := by simpa using hp
      subst hl
      exact ih _ _

theorem GetStorageAttachment_deleteCalls (c : ComputeClient σ)
    (input : GetStorageAttachmentInput) (st : St σ) :
    deleteCalls (GetStorageAttachment c input st).2.trace = deleteCalls st.trace := by
  have h : deleteCalls (getAttachmentResource c input.Name st).2.trace = deleteCalls st.trace := by
    simp [getAttachmentResource, deleteCalls, Call.isDelete]
  unfold GetStorageAttachment
  split <;> rename_i heq <;> rw [heq] at h
  · exact h
  · split <;> exact h

theorem attachProbe_deleteCalls (c : ComputeClient σ) (name : String)
    (l : Option StorageAttachmentInfo) (st : St σ) :
    deleteCalls (attachProbe c name l st).2.2.trace = deleteCalls st.trace := by
  have h := GetStorageAttachment_deleteCalls c { Name := name } st
  unfold attachProbe
  simp only []
  split <;> rename_i heq <;> rw [heq] at h
  · exact h
  · exact h
  · split <;> exact h

theorem attachProbe_locals (c : ComputeClient σ) (name : String)
    (l : Option StorageAttachmentInfo) (st : St σ) :
    (attachProbe c name l st).1 = Res.ok (true, none) ∨ (attachProbe c name l st).2.1 = l := by
  unfold attachProbe
  simp only []
  split
  · exact Or.inr rfl
  · exact Or.inr rfl
  · split
    · exact Or.inl rfl
    · exact Or.inr rfl

/-- C10, as stated, fails: on the service of `failingAttach` the attach wait fails, and
on that of `stuckAttach` it times out; in both runs `CreateStorageAttachment` returns
the wait's error and the trace has no delete request. -/
theorem CreateStorageAttachment_issues_no_delete :
    ((CreateStorageAttachment acmeClient attachInput ⟨failingAttach, []⟩).1 =
        Res.ok (none, some (GoError.transport false "500: internal error")) ∧
      deleteCalls (CreateStorageAttachment acmeClient attachInput ⟨failingAttach, []⟩).2.trace =
        []) ∧
    ((CreateStorageAttachment acmeClient attachInput ⟨stuckAttach, []⟩).1 =
        Res.ok (none, some (GoError.timeout "storage attachment to be attached")) ∧
      deleteCalls (CreateStorageAttachment acmeClient attachInput ⟨stuckAttach, []⟩).2.trace =
        []) :=
  ⟨⟨rfl, by decide⟩, ⟨rfl, by decide⟩⟩

/-- C10, amended: when the create submission succeeds and the attach wait then fails
or times out with the error `E`, `CreateStorageAttachment` returns no attachment
together with exactly `E`; it issues no delete request. -/
theorem CreateStorageAttachment_no_rollback (c : ComputeClient σ)
    (input : CreateStorageAttachmentInput) (st st1 st2 : St σ) (info : StorageAttachmentInfo)
    (r : Option StorageAttachmentInfo) (E : GoError)
    (hc : createAttachmentResource c
      { input with
        InstanceName := c.getQualifiedName input.InstanceName
        StorageVolumeName := c.getQualifiedName input.StorageVolumeName } st =
        (Except.ok (some info), st1))
    (hw : waitForStorageAttachmentToFullyAttach c info.Name
      (if input.PollInterval = 0 then WaitForVolumeAttachmentReadyPollInterval
        else input.PollInterval)
      (if input.Timeout = 0 then WaitForVolumeAttachmentReadyTimeout else input.Timeout) st1 =
        (Res.ok (r, some E), st2)) :
    CreateStorageAttachment c input st = (Res.ok (none, some E), st2) ∧
    deleteCalls st2.trace = deleteCalls st.trace := by
  have hd1 : deleteCalls st1.trace = deleteCalls st.trace := by
    have := congrArg (fun x => deleteCalls x.2.trace) hc
    simpa [createAttachmentResource, deleteCalls, Call.isDelete] using this.symm
  have hwd : ∀ n p t s, deleteCalls
      (waitForStorageAttachmentToFullyAttach c n p t s).2.trace = deleteCalls s.trace := by
    intro n p t s
    have h := WaitFor_deleteCalls c "storage attachment to be attached" (some p) t
      (attachProbe c n) (attachProbe_deleteCalls c n) none s
    unfold waitForStorageAttachmentToFullyAttach
    split <;> rename_i heq <;> rw [heq] at h <;> exact h
  obtain ⟨pv, hpv⟩ : ∃ pv : Duration, pv = (if input.PollInterval = 0 then
      WaitForVolumeAttachmentReadyPollInterval else input.PollInterval) := ⟨_, rfl⟩
  obtain ⟨tv, htv⟩ : ∃ tv : Duration, tv = (if input.Timeout = 0 then
      WaitForVolumeAttachmentReadyTimeout else input.Timeout) := ⟨_, rfl⟩
  rw [← hpv, ← htv] at hw
  have hd2 : deleteCalls st2.trace = deleteCalls st.trace := by
    have := hwd info.Name pv tv st1
    rw [hw] at this
    exact this.trans hd1
  have hr : r = none := by
    have hl := pollLoop_locals c "storage attachment to be attached" (some pv)
      (attachProbe c info.Name) (attachProbe_locals c info.Name)
      (c.transport.polls "storage attachment to be attached" (some pv) tv st1.world) none
      (st1.log (Call.waitFor "storage attachment to be attached" (some pv) tv))
    unfold waitForStorageAttachmentToFullyAttach WaitFor at hw
    revert hw hl
    generalize pollLoop c _ _ _ _ _ _ = res
    intro hw hl
    obtain ⟨a, b, s⟩ := res
    cases a with
    | panic m => simp at hw
    | ok e =>
      simp only [Prod.mk.injEq, Res.ok.injEq] at hw
      obtain ⟨⟨hrb, he⟩, _⟩ := hw
      rcases hl with h | h
      · simp only [Res.ok.injEq] at h
        rw [h] at he
        exact absurd he (by simp)
      · simp only at h
        rw [← hrb, h]
  subst hr
  refine ⟨?_, hd2⟩
  rw [hpv, htv] at hw
  unfold CreateStorageAttachment
  simp only [hc]
  by_cases h1 : input.PollInterval = 0 <;> by_cases h2 : input.Timeout = 0 <;>
    simp only [h1, h2, if_true, if_false] at hw ⊢ <;> exact hw

/-- C10, amended, on the service of `failingAttach`. -/
theorem CreateStorageAttachment_no_rollback_witness :
    CreateStorageAttachment acmeClient attachInput ⟨failingAttach, []⟩ =
      (Res.ok (none, some (GoError.transport false "500: internal error")),
        (waitForStorageAttachmentToFullyAttach acmeClient "/Compute-acme/jdoe/att"
          WaitForVolumeAttachmentReadyPollInterval WaitForVolumeAttachmentReadyTimeout
          (createAttachmentResource acmeClient
            { attachInput with
              InstanceName := "/Compute-acme/jdoe/inst"
              StorageVolumeName := "/Compute-acme/jdoe/vol" } ⟨failingAttach, []⟩).2).2) ∧
    deleteCalls (waitForStorageAttachmentToFullyAttach acmeClient "/Compute-acme/jdoe/att"
        WaitForVolumeAttachmentReadyPollInterval WaitForVolumeAttachmentReadyTimeout
        (createAttachmentResource acmeClient
          { attachInput with
            InstanceName := "/Compute-acme/jdoe/inst"
            StorageVolumeName := "/Compute-acme/jdoe/vol" } ⟨failingAttach, []⟩).2).2.trace =
      deleteCalls [] :=
  CreateStorageAttachment_no_rollback acmeClient attachInput ⟨failingAttach, []⟩ _ _
    (reportedAttachment "attaching") none (GoError.transport false "500: internal error")
    rfl rfl

/-! ## The wait configuration of each lifecycle call -/

theorem waitCalls_log (st : St σ) (call : Call) :
    waitCalls (st.log call).trace = waitCalls st.trace ++ (if call.isWaitFor then [call] else []) := by
  cases h : call.isWaitFor <;> simp [St.log, waitCalls, h]

theorem DebugLogString_waitCalls (m : String) (st : St σ) :
    waitCalls (DebugLogString m st).trace = waitCalls st.trace := by
  simp [DebugLogString, St.log, waitCalls, Call.isWaitFor]

theorem GetOrchestration_waitCalls (c : ComputeClient σ) (input : GetOrchestrationInput)
    (st : St σ) :
    waitCalls (GetOrchestration c input st).2.trace = waitCalls st.trace := by
  have h : waitCalls (getResource c input.Name st).2.trace = waitCalls st.trace := by
    simp [getResource, waitCalls, Call.isWaitFor]
  unfold GetOrchestration
  split <;> rename_i heq <;> rw [heq] at h
  · exact h
  · split <;> exact h

theorem orchestrationReadyProbe_waitCalls (c : ComputeClient σ)
    (input : GetOrchestrationInput) (l : Option Orchestration) (st : St σ) :
    waitCalls (orchestrationReadyProbe c input l st).2.2.trace = waitCalls st.trace := by
  have h := GetOrchestration_waitCalls c input st
  unfold orchestrationReadyProbe
  split <;> rename_i heq <;> rw [heq] at h
  · exact h
  · exact h
  · simp only []
    repeat' split
    all_goals simp only [DebugLogString_waitCalls, h]

theorem orchestrationDeletedProbe_waitCalls (c : ComputeClient σ)
    (input : DeleteOrchestrationInput) (l : Unit) (st : St σ) :
    waitCalls (orchestrationDeletedProbe c input l st).2.2.trace = waitCalls st.trace := by
  have h : waitCalls (getResource c input.Name st).2.trace = waitCalls st.trace := by
    simp [getResource, waitCalls, Call.isWaitFor]
  unfold orchestrationDeletedProbe
  split <;> rename_i heq <;> rw [heq] at h
  · split <;> exact h
  · simp only []
    repeat' split
    all_goals simp only [DebugLogString_waitCalls, h]

theorem GetStorageAttachment_waitCalls (c : ComputeClient σ)
    (input : GetStorageAttachmentInput) (st : St σ) :
    waitCalls (GetStorageAttachment c input st).2.trace = waitCalls st.trace := by
  have h : waitCalls (getAttachmentResource c input.Name st).2.trace = waitCalls st.trace := by
    simp [getAttachmentResource, waitCalls, Call.isWaitFor]
  unfold GetStorageAttachment
  split <;> rename_i heq <;> rw [heq] at h
  · exact h
  · split <;> exact h

theorem attachProbe_waitCalls (c : ComputeClient σ) (name : String)
    (l : Option StorageAttachmentInfo) (st : St σ) :
    waitCalls (attachProbe c name l st).2.2.trace = waitCalls st.trace := by
  have h := GetStorageAttachment_waitCalls c { Name := name } st
  unfold attachProbe
  simp only []
  split <;> rename_i heq <;> rw [heq] at h
  · exact h
  · exact h
  · split <;> exact h

theorem attachmentDeletedProbe_waitCalls (c : ComputeClient σ) (name : String)
    (l : Unit) (st : St σ) :
    waitCalls (attachmentDeletedProbe c name l st).2.2.trace = waitCalls st.trace := by
  have h := GetStorageAttachment_waitCalls c { Name := name } st
  unfold attachmentDeletedProbe
  simp only []
  split <;> rename_i heq <;> rw [heq] at h
  · exact h
  · split <;> exact h
  · exact h

/-- A call of the poll engine adds exactly one entry to the wait calls of the trace:
the configuration it is handed. -/
theorem WaitFor_waitCalls {L : Type} (c : ComputeClient σ) (d : String)
    (p : Option Duration) (t : Duration)
    (probe : L → St σ → Res (Bool × Option GoError) × L × St σ)
    (hprobe : ∀ l st, waitCalls (probe l st).2.2.trace = waitCalls st.trace)
    (l : L) (st : St σ) :
    waitCalls (WaitFor c d p t probe l st).2.2.trace =
      waitCalls st.trace ++ [Call.waitFor d p t] := by
  unfold WaitFor
  refine pollLoop_preserves c d p probe
    (fun s => waitCalls s.trace = waitCalls st.trace ++ [Call.waitFor d p t])
    (fun l s h => (hprobe l s).trans h) (fun s h => h) _ _ _ ?_
  simp [St.log, waitCalls, Call.isWaitFor]

theorem WaitForOrchestrationState_waitCalls (c : ComputeClient σ)
    (input : GetOrchestrationInput) (t : Duration) (st : St σ) :
    waitCalls (WaitForOrchestrationState c input t st).2.trace =
      waitCalls st.trace ++ [Call.waitFor "orchestration to be ready" none t] := by
  have h := WaitFor_waitCalls c "orchestration to be ready" none t
    (orchestrationReadyProbe c input) (orchestrationReadyProbe_waitCalls c input) none st
  unfold WaitForOrchestrationState
  split <;> rename_i heq <;> rw [heq] at h <;> exact h

theorem WaitForOrchestrationDeleted_waitCalls (c : ComputeClient σ)
    (input : DeleteOrchestrationInput) (t : Duration) (st : St σ) :
    waitCalls (WaitForOrchestrationDeleted c input t st).2.trace =
      waitCalls st.trace ++ [Call.waitFor "orchestration to be deleted" none t] := by
  have h := WaitFor_waitCalls c "orchestration to be deleted" none t
    (orchestrationDeletedProbe c input) (orchestrationDeletedProbe_waitCalls c input) () st
  unfold WaitForOrchestrationDeleted
  exact h

theorem waitForStorageAttachmentToFullyAttach_waitCalls (c : ComputeClient σ) (name : String)
    (p t : Duration) (st : St σ) :
    waitCalls (waitForStorageAttachmentToFullyAttach c name p t st).2.trace =
      waitCalls st.trace ++ [Call.waitFor "storage attachment to be attached" (some p) t] := by
  have h := WaitFor_waitCalls c "storage attachment to be attached" (some p) t
    (attachProbe c name) (attachProbe_waitCalls c name) none st
  unfold waitForStorageAttachmentToFullyAttach
  split <;> rename_i heq <;> rw [heq] at h <;> exact h

theorem waitForStorageAttachmentToBeDeleted_waitCalls (c : ComputeClient σ) (name : String)
    (p t : Duration) (st : St σ) :
    waitCalls (waitForStorageAttachmentToBeDeleted c name p t st).2.trace =
      waitCalls st.trace ++ [Call.waitFor "storage attachment to be deleted" (some p) t] := by
  have h := WaitFor_waitCalls c "storage attachment to be deleted" (some p) t
    (attachmentDeletedProbe c name) (attachmentDeletedProbe_waitCalls c name) () st
  unfold waitForStorageAttachmentToBeDeleted
  exact h

theorem CreateStorageAttachment_waitCalls (c : ComputeClient σ)
    (input : CreateStorageAttachmentInput) (st st1 : St σ) (info : StorageAttachmentInfo)
    (hc : createAttachmentResource c
      { input with
        InstanceName := c.getQualifiedName input.InstanceName
        StorageVolumeName := c.getQualifiedName input.StorageVolumeName } st =
        (Except.ok (some info), st1)) :
    waitCalls (CreateStorageAttachment c input st).2.trace =
      waitCalls st.trace ++ [Call.waitFor "storage attachment to be attached"
        (some (if input.PollInterval = 0 then 1 * Second else input.PollInterval))
        (if input.Timeout = 0 then 30 * Second else input.Timeout)] := by
  have h1 : waitCalls st1.trace = waitCalls st.trace := by
    have := congrArg (fun x => waitCalls x.2.trace) hc
    simpa [createAttachmentResource, waitCalls, Call.isWaitFor] using this.symm
  unfold CreateStorageAttachment
  simp only [hc]
  by_cases hp : input.PollInterval = 0 <;> by_cases ht : input.Timeout = 0 <;>
    simp only [hp, ht, if_true, if_false, waitForStorageAttachmentToFullyAttach_waitCalls, h1] <;>
    rfl

theorem DeleteStorageAttachment_waitCalls (c : ComputeClient σ)
    (input : DeleteStorageAttachmentInput) (st st1 : St σ)
    (hd : deleteResource c input.Name st = (none, st1)) :
    waitCalls (DeleteStorageAttachment c input st).2.trace =
      waitCalls st.trace ++ [Call.waitFor "storage attachment to be deleted"
        (some (if input.PollInterval = 0 then 1 * Second else input.PollInterval))
        (if input.Timeout = 0 then 30 * Second else input.Timeout)] := by
  have h1 : waitCalls st1.trace = waitCalls st.trace := by
    have := congrArg (fun x => waitCalls x.2.trace) hd
    simpa [deleteResource, waitCalls, Call.isWaitFor] using this.symm
  unfold DeleteStorageAttachment
  simp only [hd]
  by_cases hp : input.PollInterval = 0 <;> by_cases ht : input.Timeout = 0 <;>
    simp only [hp, ht, if_true, if_false, waitForStorageAttachmentToBeDeleted_waitCalls, h1] <;>
    rfl

theorem DeleteOrchestration_waitCalls (c : ComputeClient σ)
    (input : DeleteOrchestrationInput) (st st1 : St σ)
    (hd : deleteOrchestration c input.Name st = (none, st1)) :
    waitCalls (DeleteOrchestration c input st).2.trace =
      waitCalls st.trace ++ [Call.waitFor "orchestration to be deleted" none
        (if input.Timeout = 0 then 3600 * Second else input.Timeout)] := by
  have h1 : waitCalls st1.trace = waitCalls st.trace := by
    have := congrArg (fun x => waitCalls x.2.trace) hd
    simpa [deleteOrchestration, waitCalls, Call.isWaitFor] using this.symm
  unfold DeleteOrchestration
  simp only [hd]
  by_cases ht : input.Timeout = 0 <;>
    simp only [ht, if_true, if_false, WaitForOrchestrationDeleted_waitCalls, h1]
  rfl

/-- Whether or not its delete request succeeds, `DeleteOrchestration` adds at most the
one wait for deletion, with its own defaulted timeout. -/
theorem DeleteOrchestration_waitCalls_any (c : ComputeClient σ)
    (input : DeleteOrchestrationInput) (st : St σ) :
    ∃ rest, waitCalls (DeleteOrchestration c input st).2.trace = waitCalls st.trace ++ rest ∧
      ∀ call ∈ rest, call = Call.waitFor "orchestration to be deleted" none
        (if input.Timeout = 0 then 3600 * Second else input.Timeout) := by
  cases hd : deleteOrchestration c input.Name st with
  | mk e st1 =>
    cases e with
    | none => exact ⟨_, DeleteOrchestration_waitCalls c input st st1 hd, by simp⟩
    | some err =>
      refine ⟨[], ?_, by simp⟩
      have h1 : waitCalls st1.trace = waitCalls st.trace := by
        have := congrArg (fun x => waitCalls x.2.trace) hd
        simpa [deleteOrchestration, waitCalls, Call.isWaitFor] using this.symm
      unfold DeleteOrchestration
      simp only [hd, h1, List.append_nil]

theorem UpdateOrchestration_waitCalls (c : ComputeClient σ)
    (input : UpdateOrchestrationInput) (st st1 : St σ) (objects : List Object)
    (updated : Orchestration)
    (hq : qualifyUpdateObjects c input.Objects = Res.ok objects)
    (hu : updateResource c (c.getQualifiedName input.Name)
      { input with Name := c.getQualifiedName input.Name, Objects := objects } st =
        (Except.ok updated, st1)) :
    waitCalls (UpdateOrchestration c input st).2.trace =
      waitCalls st.trace ++ [Call.waitFor "orchestration to be ready" none
        (if input.Timeout = 0 then 3600 * Second else input.Timeout)] := by
  have h1 : waitCalls st1.trace = waitCalls st.trace := by
    have := congrArg (fun x => waitCalls x.2.trace) hu
    simpa [updateResource, waitCalls, Call.isWaitFor] using this.symm
  have hT : ∀ (a b : UpdateOrchestrationInput),
      (if input.Timeout = 0 then a else b).Timeout =
        if input.Timeout = 0 then a.Timeout else b.Timeout := by
    intro a b; split <;> rfl
  have hw := WaitForOrchestrationState_waitCalls c { Name := updated.Name }
    (if input.Timeout = 0 then WaitForOrchestrationActiveTimeout else input.Timeout) st1
  rw [h1] at hw
  unfold UpdateOrchestration
  simp only [hq, hu, hT]
  split <;> rename_i heq <;> rw [heq] at hw <;> exact hw

theorem CreateOrchestration_waitCalls (c : ComputeClient σ)
    (input : CreateOrchestrationInput) (st st1 : St σ) (objects : List Object)
    (created : Orchestration)
    (hq : qualifyCreateObjects c input.Objects = Res.ok objects)
    (hc : createResource c
      { input with Name := c.getQualifiedName input.Name, Objects := objects } st =
        (Except.ok created, st1)) :
    ∃ rest, waitCalls (CreateOrchestration c input st).2.trace =
        waitCalls st.trace ++ Call.waitFor "orchestration to be ready" none
          (if input.Timeout = 0 then 3600 * Second else input.Timeout) :: rest ∧
      ∀ call ∈ rest,
        call = Call.waitFor "orchestration to be deleted" none (3600 * Second) := by
  have h1 : waitCalls st1.trace = waitCalls st.trace := by
    have := congrArg (fun x => waitCalls x.2.trace) hc
    simpa [createResource, waitCalls, Call.isWaitFor] using this.symm
  have hT : ∀ (a b : CreateOrchestrationInput),
      (if input.Timeout = 0 then a else b).Timeout =
        if input.Timeout = 0 then a.Timeout else b.Timeout := by
    intro a b; split <;> rfl
  have hw := WaitForOrchestrationState_waitCalls c { Name := created.Name }
    (if input.Timeout = 0 then WaitForOrchestrationActiveTimeout else input.Timeout) st1
  rw [h1] at hw
  unfold CreateOrchestration
  simp only [hq, hc, hT]
  split <;> rename_i heq <;> rw [heq] at hw
  · exact ⟨[], by simpa using hw, by simp⟩
  · rename_i _ _ st2
    obtain ⟨rest, hrest, hall⟩ :=
      DeleteOrchestration_waitCalls_any c { Name := created.Name } st2
    refine ⟨rest, ?_, fun call hcall => by simpa using hall call hcall⟩
    simp only at hw
    rw [hw] at hrest
    split <;> rename_i heq2 <;> rw [heq2] at hrest <;> simpa using hrest
  · exact ⟨[], by simpa using hw, by simp⟩

/-- C11: each wait is run with the caller's value when it is non-zero and with the
default otherwise. `CreateStorageAttachment` and `DeleteStorageAttachment` hand the
poll engine the poll interval `input.PollInterval` if non-zero else 1 second and the
timeout `input.Timeout` if non-zero else 30 seconds, each chosen on its own;
`CreateOrchestration`, `UpdateOrchestration` and `DeleteOrchestration` hand it the
timeout `input.Timeout` if non-zero else 3600 seconds. (A wait that
`CreateOrchestration` adds after that one is the wait of its compensating delete.) -/
theorem waits_use_caller_value_or_default (c : ComputeClient σ)
    (ain : CreateStorageAttachmentInput) (adel : DeleteStorageAttachmentInput)
    (oin : CreateOrchestrationInput) (uin : UpdateOrchestrationInput)
    (odel : DeleteOrchestrationInput)
    (ast ast1 dst dst1 ost ost1 ust ust1 est est1 : St σ) (info : StorageAttachmentInfo)
    (objects uobjects : List Object) (created updated : Orchestration)
    (hac : createAttachmentResource c
      { ain with
        InstanceName := c.getQualifiedName ain.InstanceName
        StorageVolumeName := c.getQualifiedName ain.StorageVolumeName } ast =
        (Except.ok (some info), ast1))
    (had : deleteResource c adel.Name dst = (none, dst1))
    (hoq : qualifyCreateObjects c oin.Objects = Res.ok objects)
    (hoc : createResource c
      { oin with Name := c.getQualifiedName oin.Name, Objects := objects } ost =
        (Except.ok created, ost1))
    (huq : qualifyUpdateObjects c uin.Objects = Res.ok uobjects)
    (huu : updateResource c (c.getQualifiedName uin.Name)
      { uin with Name := c.getQualifiedName uin.Name, Objects := uobjects } ust =
        (Except.ok updated, ust1))
    (hod : deleteOrchestration c odel.Name est = (none, est1)) :
    waitCalls (CreateStorageAttachment c ain ast).2.trace =
      waitCalls ast.trace ++ [Call.waitFor "storage attachment to be attached"
        (some (if ain.PollInterval = 0 then 1 * Second else ain.PollInterval))
        (if ain.Timeout = 0 then 30 * Second else ain.Timeout)] ∧
    waitCalls (DeleteStorageAttachment c adel dst).2.trace =
      waitCalls dst.trace ++ [Call.waitFor "storage attachment to be deleted"
        (some (if adel.PollInterval = 0 then 1 * Second else adel.PollInterval))
        (if adel.Timeout = 0 then 30 * Second else adel.Timeout)] ∧
    (∃ rest, waitCalls (CreateOrchestration c oin ost).2.trace =
        waitCalls ost.trace ++ Call.waitFor "orchestration to be ready" none
          (if oin.Timeout = 0 then 3600 * Second else oin.Timeout) :: rest ∧
      ∀ call ∈ rest,
        call = Call.waitFor "orchestration to be deleted" none (3600 * Second)) ∧
    waitCalls (UpdateOrchestration c uin ust).2.trace =
      waitCalls ust.trace ++ [Call.waitFor "orchestration to be ready" none
        (if uin.Timeout = 0 then 3600 * Second else uin.Timeout)] ∧
    waitCalls (DeleteOrchestration c odel est).2.trace =
      waitCalls est.trace ++ [Call.waitFor "orchestration to be deleted" none
        (if odel.Timeout = 0 then 3600 * Second else odel.Timeout)] :=
  ⟨CreateStorageAttachment_waitCalls c ain ast ast1 info hac,
    DeleteStorageAttachment_waitCalls c adel dst dst1 had,
    CreateOrchestration_waitCalls c oin ost ost1 objects created hoq hoc,
    UpdateOrchestration_waitCalls c uin ust ust1 uobjects updated huq huu,
    DeleteOrchestration_waitCalls c odel est est1 hod⟩

/-- C11, concrete runs: an attachment created with both values left zero waits with
1 s and 30 s; one deleted with a poll interval of 2 s and no timeout waits with 2 s and
30 s; `web` created with no timeout waits 3600 s, updated with a timeout of 10 s waits
10 s, and deleted with no timeout waits 3600 s. -/
theorem waits_use_caller_value_or_default_witness :
    waitCalls (CreateStorageAttachment acmeClient attachInput ⟨failingAttach, []⟩).2.trace =
      waitCalls [] ++ [Call.waitFor "storage attachment to be attached"
        (some (1 * Second)) (30 * Second)] ∧
    waitCalls (DeleteStorageAttachment acmeClient { Name := "att", PollInterval := 2 * Second }
        ⟨emptyWorld, []⟩).2.trace =
      waitCalls [] ++ [Call.waitFor "storage attachment to be deleted"
        (some (2 * Second)) (30 * Second)] ∧
    (∃ rest, waitCalls (CreateOrchestration acmeClient webInput ⟨failingCreate, []⟩).2.trace =
        waitCalls [] ++ Call.waitFor "orchestration to be ready" none (3600 * Second) :: rest ∧
      ∀ call ∈ rest,
        call = Call.waitFor "orchestration to be deleted" none (3600 * Second)) ∧
    waitCalls (UpdateOrchestration acmeClient { webUpdate with Timeout := 10 * Second }
        ⟨failingUpdate, []⟩).2.trace =
      waitCalls [] ++ [Call.waitFor "orchestration to be ready" none (10 * Second)] ∧
    waitCalls (DeleteOrchestration acmeClient { Name := "web" } ⟨emptyWorld, []⟩).2.trace =
      waitCalls [] ++ [Call.waitFor "orchestration to be deleted" none (3600 * Second)] :=
  waits_use_caller_value_or_default acmeClient attachInput
    { Name := "att", PollInterval := 2 * Second } webInput
    { webUpdate with Timeout := 10 * Second } { Name := "web" }
    ⟨failingAttach, []⟩ _ ⟨emptyWorld, []⟩ _ ⟨failingCreate, []⟩ _ ⟨failingUpdate, []⟩ _
    ⟨emptyWorld, []⟩ _ (reportedAttachment "attaching") [] [] (webOrchestration "activating")
    (webOrchestration "active") rfl rfl rfl rfl rfl rfl rfl

/-! ## No validation of the wait configuration -/

/-- C12, as stated, fails: with a poll interval of -1 ns, and with a poll interval of
60 s and the timeout left zero, `CreateStorageAttachment` calls the poll engine with
these values as they are (-1 ns and 30 s; 60 s and 30 s) and returns the attached
attachment; `DeleteStorageAttachment` with a poll interval of -1 ns polls likewise and
returns success. None of the three configurations is valid. -/
theorem storage_waits_poll_with_invalid_WaitSpec :
    (waitCalls (CreateStorageAttachment acmeClient { attachInput with PollInterval := -1 }
          ⟨quickAttach, []⟩).2.trace =
        [Call.waitFor "storage attachment to be attached" (some (-1)) (30 * Second)] ∧
      (CreateStorageAttachment acmeClient { attachInput with PollInterval := -1 }
          ⟨quickAttach, []⟩).1 =
        Res.ok (some { Name := "att", Index := 1, InstanceName := "inst"
                       StorageVolumeName := "vol", State := "attached" }, none) ∧
      ¬ validWaitSpec (-1) (30 * Second)) ∧
    (waitCalls (CreateStorageAttachment acmeClient
          { attachInput with PollInterval := 60 * Second } ⟨quickAttach, []⟩).2.trace =
        [Call.waitFor "storage attachment to be attached" (some (60 * Second))
          (30 * Second)] ∧
      (CreateStorageAttachment acmeClient { attachInput with PollInterval := 60 * Second }
          ⟨quickAttach, []⟩).1 =
        Res.ok (some { Name := "att", Index := 1, InstanceName := "inst"
                       StorageVolumeName := "vol", State := "attached" }, none) ∧
      ¬ validWaitSpec (60 * Second) (30 * Second)) ∧
    (waitCalls (DeleteStorageAttachment acmeClient { Name := "att", PollInterval := -1 }
          ⟨emptyWorld, []⟩).2.trace =
        [Call.waitFor "storage attachment to be deleted" (some (-1)) (30 * Second)] ∧
      (DeleteStorageAttachment acmeClient { Name := "att", PollInterval := -1 }
          ⟨emptyWorld, []⟩).1 = Res.ok none) :=
  ⟨⟨by decide, rfl, by decide⟩, ⟨by decide, rfl, by decide⟩, ⟨by decide, rfl⟩⟩

/-- An error with which the poll loop ends is the timeout of the wait or an error the
probe reported. -/
theorem pollLoop_error_origin {L : Type} (c : ComputeClient σ) (d : String)
    (p : Option Duration) (probe : L → St σ → Res (Bool × Option GoError) × L × St σ)
    (Q : GoError → Prop)
    (hprobe : ∀ l st b e, (probe l st).1 = Res.ok (b, some e) → Q e) :
    ∀ n l st e, (pollLoop c d p probe n l st).1 = Res.ok (some e) →
      e = GoError.timeout d ∨ Q e := by
  intro n
  induction n with
  | zero =>
    intro l st e h
    have hp := hprobe l st
    unfold pollLoop at h
    split at h <;> rename_i heq <;> rw [heq] at hp
    · simp at h
    · simp only [Res.ok.injEq, Option.some.injEq] at h
      subst h
      exact Or.inr (hp _ _ rfl)
    · simp at h
    · simp only [Res.ok.injEq, Option.some.injEq] at h
      exact Or.inl h.symm
  | succ n ih =>
    intro l st e h
    have hp := hprobe l st
    unfold pollLoop at h
    split at h <;> rename_i heq <;> rw [heq] at hp
    · simp at h
    · simp only [Res.ok.injEq, Option.some.injEq] at h
      subst h
      exact Or.inr (hp _ _ rfl)
    · simp at h
    · exact ih _ _ _ h

/-- An error that `GetStorageAttachment` returns is an error the transport gave to a
get request. -/
theorem GetStorageAttachment_error_origin (c : ComputeClient σ)
    (input : GetStorageAttachmentInput) (st : St σ) (e : GoError)
    (h : (GetStorageAttachment c input st).1 = Res.ok (Except.error e)) :
    ∃ name w, (c.transport.getAttachment name w).1 = Except.error e := by
  unfold GetStorageAttachment at h
  split at h
  · rename_i err st1 heq
    simp only [Res.ok.injEq, Except.error.injEq] at h
    subst h
    refine ⟨input.Name, st.world, ?_⟩
    have := congrArg Prod.fst heq
    simpa [getAttachmentResource] using this
  · split at h <;> simp at h

theorem attachProbe_error_origin (c : ComputeClient σ) (name : String)
    (l : Option StorageAttachmentInfo) (st : St σ) (b : Bool) (e : GoError)
    (h : (attachProbe c name l st).1 = Res.ok (b, some e)) :
    ∃ nm w, (c.transport.getAttachment nm w).1 = Except.error e := by
  unfold attachProbe at h
  simp only [] at h
  split at h
  · simp at h
  · rename_i err st1 heq
    simp only [Res.ok.injEq, Prod.mk.injEq, Option.some.injEq] at h
    obtain ⟨_, he⟩ := h
    subst he
    exact GetStorageAttachment_error_origin c { Name := name } st err
      (by rw [heq])
  · split at h <;> simp at h

theorem attachmentDeletedProbe_error_origin (c : ComputeClient σ) (name : String)
    (l : Unit) (st : St σ) (b : Bool) (e : GoError)
    (h : (attachmentDeletedProbe c name l st).1 = Res.ok (b, some e)) :
    ∃ nm w, (c.transport.getAttachment nm w).1 = Except.error e := by
  unfold attachmentDeletedProbe at h
  simp only [] at h
  split at h
  · simp at h
  · rename_i err st1 heq
    split at h
    · simp at h
    · simp only [Res.ok.injEq, Prod.mk.injEq, Option.some.injEq] at h
      obtain ⟨_, he⟩ := h
      subst he
      exact GetStorageAttachment_error_origin c { Name := name } st err
        (by rw [heq])
  · simp at h

/-- An error the attach wait returns is its timeout or an error of a get request. -/
theorem waitForStorageAttachmentToFullyAttach_error_origin (c : ComputeClient σ)
    (name : String) (p t : Duration) (st : St σ) (r : Option StorageAttachmentInfo)
    (e : GoError)
    (h : (waitForStorageAttachmentToFullyAttach c name p t st).1 = Res.ok (r, some e)) :
    e = GoError.timeout "storage attachment to be attached" ∨
      ∃ nm w, (c.transport.getAttachment nm w).1 = Except.error e := by
  have ho := pollLoop_error_origin c "storage attachment to be attached" (some p)
    (attachProbe c name)
    (fun e => ∃ nm w, (c.transport.getAttachment nm w).1 = Except.error e)
    (attachProbe_error_origin c name)
    (c.transport.polls "storage attachment to be attached" (some p) t st.world) none
    (st.log (Call.waitFor "storage attachment to be attached" (some p) t)) e
  unfold waitForStorageAttachmentToFullyAttach WaitFor at h
  revert h ho
  generalize pollLoop c _ _ _ _ _ _ = res
  intro h ho
  obtain ⟨a, l, s⟩ := res
  cases a with
  | panic m => simp at h
  | ok err =>
    simp only [Res.ok.injEq, Prod.mk.injEq] at h
    exact ho (by rw [h.2])

/-- An error the attachment delete wait returns is its timeout or an error of a get
request. -/
theorem waitForStorageAttachmentToBeDeleted_error_origin (c : ComputeClient σ)
    (name : String) (p t : Duration) (st : St σ) (e : GoError)
    (h : (waitForStorageAttachmentToBeDeleted c name p t st).1 = Res.ok (some e)) :
    e = GoError.timeout "storage attachment to be deleted" ∨
      ∃ nm w, (c.transport.getAttachment nm w).1 = Except.error e := by
  have ho := pollLoop_error_origin c "storage attachment to be deleted" (some p)
    (attachmentDeletedProbe c name)
    (fun e => ∃ nm w, (c.transport.getAttachment nm w).1 = Except.error e)
    (attachmentDeletedProbe_error_origin c name)
    (c.transport.polls "storage attachment to be deleted" (some p) t st.world) ()
    (st.log (Call.waitFor "storage attachment to be deleted" (some p) t)) e
  unfold waitForStorageAttachmentToBeDeleted WaitFor at h
  exact ho h

/-- When the create request succeeds, `CreateStorageAttachment` is the attach wait for
the returned name with the defaulted poll interval and timeout, whatever these are. -/
theorem CreateStorageAttachment_eq_wait (c : ComputeClient σ)
    (input : CreateStorageAttachmentInput) (st st1 : St σ) (info : StorageAttachmentInfo)
    (hc : createAttachmentResource c
      { input with
        InstanceName := c.getQualifiedName input.InstanceName
        StorageVolumeName := c.getQualifiedName input.StorageVolumeName } st =
        (Except.ok (some info), st1)) :
    CreateStorageAttachment c input st =
      waitForStorageAttachmentToFullyAttach c info.Name
        (if input.PollInterval = 0 then WaitForVolumeAttachmentReadyPollInterval
          else input.PollInterval)
        (if input.Timeout = 0 then WaitForVolumeAttachmentReadyTimeout else input.Timeout)
        st1 := by
  unfold CreateStorageAttachment
  simp only [hc]
  by_cases hp : input.PollInterval = 0 <;> by_cases ht : input.Timeout = 0 <;>
    simp only [hp, ht, if_true, if_false]

/-- When the delete request succeeds, `DeleteStorageAttachment` is the delete wait for
the name with the defaulted poll interval and timeout, whatever these are. -/
theorem DeleteStorageAttachment_eq_wait (c : ComputeClient σ)
    (input : DeleteStorageAttachmentInput) (st st1 : St σ)
    (hd : deleteResource c input.Name st = (none, st1)) :
    DeleteStorageAttachment c input st =
      waitForStorageAttachmentToBeDeleted c input.Name
        (if input.PollInterval = 0 then WaitForVolumeAttachmentDeletePollInterval
          else input.PollInterval)
        (if input.Timeout = 0 then WaitForVolumeAttachmentDeleteTimeout else input.Timeout)
        st1 := by
  unfold DeleteStorageAttachment
  simp only [hd]
  by_cases hp : input.PollInterval = 0 <;> by_cases ht : input.Timeout = 0 <;>
    simp only [hp, ht, if_true, if_false]

/-- When the create request is answered with no attachment (a null body),
`CreateStorageAttachment` stops on `attachmentInfo.Name` before it calls the poll
engine. -/
theorem CreateStorageAttachment_nil_attachment (c : ComputeClient σ)
    (input : CreateStorageAttachmentInput) (st st1 : St σ)
    (hc : createAttachmentResource c
      { input with
        InstanceName := c.getQualifiedName input.InstanceName
        StorageVolumeName := c.getQualifiedName input.StorageVolumeName } st =
        (Except.ok none, st1)) :
    CreateStorageAttachment c input st =
      (Res.panic "invalid memory address or nil pointer dereference", st1) := by
  unfold CreateStorageAttachment
  simp only [hc]

/-- The defaulted wait configuration is valid exactly when the caller's poll interval
is not negative and the defaulted timeout is not below the defaulted poll interval. -/
theorem validWaitSpec_defaulted (pollInterval timeout defaultInterval defaultTimeout : Duration)
    (hpos : 0 < defaultInterval) :
    validWaitSpec (if pollInterval = 0 then defaultInterval else pollInterval)
        (if timeout = 0 then defaultTimeout else timeout) ↔
      0 ≤ pollInterval ∧
        (if pollInterval = 0 then defaultInterval else pollInterval) ≤
          (if timeout = 0 then defaultTimeout else timeout) := by
  unfold validWaitSpec
  by_cases hp : pollInterval = 0
  · simp only [hp, if_true]
    constructor
    · rintro ⟨_, h2⟩; exact ⟨le_refl _, h2⟩
    · rintro ⟨_, h2⟩; exact ⟨hpos, h2⟩
  · simp only [hp, if_false]
    constructor
    · rintro ⟨h1, h2⟩; exact ⟨le_of_lt h1, h2⟩
    · rintro ⟨h1, h2⟩; exact ⟨lt_of_le_of_ne h1 (Ne.symm hp), h2⟩

/-- An error `CreateStorageAttachment` returns is the timeout of the attach wait, an
error of a get request, or the error of the create request. -/
theorem CreateStorageAttachment_error_origin (c : ComputeClient σ)
    (input : CreateStorageAttachmentInput) (st : St σ) (r : Option StorageAttachmentInfo)
    (e : GoError) (h : (CreateStorageAttachment c input st).1 = Res.ok (r, some e)) :
    e = GoError.timeout "storage attachment to be attached" ∨
      (∃ nm w, (c.transport.getAttachment nm w).1 = Except.error e) ∨
      ∃ body w, (c.transport.createAttachment body w).1 = Except.error e := by
  cases hc : createAttachmentResource c
      { input with
        InstanceName := c.getQualifiedName input.InstanceName
        StorageVolumeName := c.getQualifiedName input.StorageVolumeName } st with
  | mk res st1 =>
    cases res with
    | error err =>
      have hres : (CreateStorageAttachment c input st).1 = Res.ok (none, some err) := by
        unfold CreateStorageAttachment
        simp only [hc]
      rw [hres] at h
      simp only [Res.ok.injEq, Prod.mk.injEq, Option.some.injEq] at h
      obtain ⟨_, he⟩ := h
      subst he
      refine Or.inr (Or.inr ⟨{ input with
        InstanceName := c.getQualifiedName input.InstanceName
        StorageVolumeName := c.getQualifiedName input.StorageVolumeName }, st.world, ?_⟩)
      have := congrArg Prod.fst hc
      simpa [createAttachmentResource] using this
    | ok attachment =>
      cases attachment with
      | none =>
        rw [CreateStorageAttachment_nil_attachment c input st st1 hc] at h
        simp at h
      | some info =>
        rw [CreateStorageAttachment_eq_wait c input st st1 info hc] at h
        rcases waitForStorageAttachmentToFullyAttach_error_origin c _ _ _ _ r e h with h1 | h1
        · exact Or.inl h1
        · exact Or.inr (Or.inl h1)

/-- An error `DeleteStorageAttachment` returns is the timeout of the delete wait, an
error of a get request, or the error of the delete request. -/
theorem DeleteStorageAttachment_error_origin (c : ComputeClient σ)
    (input : DeleteStorageAttachmentInput) (st : St σ) (e : GoError)
    (h : (DeleteStorageAttachment c input st).1 = Res.ok (some e)) :
    e = GoError.timeout "storage attachment to be deleted" ∨
      (∃ nm w, (c.transport.getAttachment nm w).1 = Except.error e) ∨
      ∃ nm w, (c.transport.deleteAttachment nm w).1 = some e := by
  cases hd : deleteResource c input.Name st with
  | mk res st1 =>
    cases res with
    | some err =>
      have hres : (DeleteStorageAttachment c input st).1 = Res.ok (some err) := by
        unfold DeleteStorageAttachment
        simp only [hd]
      rw [hres] at h
      simp only [Res.ok.injEq, Option.some.injEq] at h
      subst h
      refine Or.inr (Or.inr ⟨input.Name, st.world, ?_⟩)
      have := congrArg Prod.fst hd
      simpa [deleteResource] using this
    | none =>
      rw [DeleteStorageAttachment_eq_wait c input st st1 hd] at h
      rcases waitForStorageAttachmentToBeDeleted_error_origin c _ _ _ _ e h with h1 | h1
      · exact Or.inl h1
      · exact Or.inr (Or.inl h1)

/-- C12, amended: `CreateStorageAttachment` and `DeleteStorageAttachment` do not
validate the wait configuration. For every input, an error the call returns is the
timeout of its wait, an error of a get request, or the error of its create (delete)
request, never a validation error. Whenever the create request returns an attachment
(for the delete: whenever the delete request succeeds), the call is exactly the wait
run with the defaulted poll interval and timeout as they are, and the poll engine is
called once, with these values. The values handed over satisfy `pollInterval > 0` and
`timeout >= pollInterval` exactly when the caller's poll interval is not negative and
the defaulted timeout is not below the defaulted poll interval. -/
theorem storage_waits_are_not_validated (c : ComputeClient σ)
    (ain : CreateStorageAttachmentInput) (adel : DeleteStorageAttachmentInput)
    (ast ast1 dst dst1 : St σ) (info : StorageAttachmentInfo) :
    ((∀ (r : Option StorageAttachmentInfo) (e : GoError),
        (CreateStorageAttachment c ain ast).1 = Res.ok (r, some e) →
        e = GoError.timeout "storage attachment to be attached" ∨
          (∃ nm w, (c.transport.getAttachment nm w).1 = Except.error e) ∨
          ∃ body w, (c.transport.createAttachment body w).1 = Except.error e) ∧
      (createAttachmentResource c
          { ain with
            InstanceName := c.getQualifiedName ain.InstanceName
            StorageVolumeName := c.getQualifiedName ain.StorageVolumeName } ast =
            (Except.ok (some info), ast1) →
        CreateStorageAttachment c ain ast =
          waitForStorageAttachmentToFullyAttach c info.Name
            (if ain.PollInterval = 0 then WaitForVolumeAttachmentReadyPollInterval
              else ain.PollInterval)
            (if ain.Timeout = 0 then WaitForVolumeAttachmentReadyTimeout else ain.Timeout)
            ast1 ∧
        waitCalls (CreateStorageAttachment c ain ast).2.trace =
          waitCalls ast.trace ++ [Call.waitFor "storage attachment to be attached"
            (some (if ain.PollInterval = 0 then WaitForVolumeAttachmentReadyPollInterval
              else ain.PollInterval))
            (if ain.Timeout = 0 then WaitForVolumeAttachmentReadyTimeout else ain.Timeout)] ∧
        (validWaitSpec
            (if ain.PollInterval = 0 then WaitForVolumeAttachmentReadyPollInterval
              else ain.PollInterval)
            (if ain.Timeout = 0 then WaitForVolumeAttachmentReadyTimeout else ain.Timeout) ↔
          0 ≤ ain.PollInterval ∧
            (if ain.PollInterval = 0 then WaitForVolumeAttachmentReadyPollInterval
              else ain.PollInterval) ≤
            (if ain.Timeout = 0 then WaitForVolumeAttachmentReadyTimeout
              else ain.Timeout)))) ∧
    ((∀ e : GoError,
        (DeleteStorageAttachment c adel dst).1 = Res.ok (some e) →
        e = GoError.timeout "storage attachment to be deleted" ∨
          (∃ nm w, (c.transport.getAttachment nm w).1 = Except.error e) ∨
          ∃ nm w, (c.transport.deleteAttachment nm w).1 = some e) ∧
      (deleteResource c adel.Name dst = (none, dst1) →
        DeleteStorageAttachment c adel dst =
          waitForStorageAttachmentToBeDeleted c adel.Name
            (if adel.PollInterval = 0 then WaitForVolumeAttachmentDeletePollInterval
              else adel.PollInterval)
            (if adel.Timeout = 0 then WaitForVolumeAttachmentDeleteTimeout else adel.Timeout)
            dst1 ∧
        waitCalls (DeleteStorageAttachment c adel dst).2.trace =
          waitCalls dst.trace ++ [Call.waitFor "storage attachment to be deleted"
            (some (if adel.PollInterval = 0 then WaitForVolumeAttachmentDeletePollInterval
              else adel.PollInterval))
            (if adel.Timeout = 0 then WaitForVolumeAttachmentDeleteTimeout
              else adel.Timeout)] ∧
        (validWaitSpec
            (if adel.PollInterval = 0 then WaitForVolumeAttachmentDeletePollInterval
              else adel.PollInterval)
            (if adel.Timeout = 0 then WaitForVolumeAttachmentDeleteTimeout
              else adel.Timeout) ↔
          0 ≤ adel.PollInterval ∧
            (if adel.PollInterval = 0 then WaitForVolumeAttachmentDeletePollInterval
              else adel.PollInterval) ≤
            (if adel.Timeout = 0 then WaitForVolumeAttachmentDeleteTimeout
              else adel.Timeout)))) :=
  ⟨⟨CreateStorageAttachment_error_origin c ain ast,
      fun hac => ⟨CreateStorageAttachment_eq_wait c ain ast ast1 info hac,
        CreateStorageAttachment_waitCalls c ain ast ast1 info hac,
        validWaitSpec_defaulted _ _ _ _ (by decide)⟩⟩,
    ⟨DeleteStorageAttachment_error_origin c adel dst,
      fun had => ⟨DeleteStorageAttachment_eq_wait c adel dst dst1 had,
        DeleteStorageAttachment_waitCalls c adel dst dst1 had,
        validWaitSpec_defaulted _ _ _ _ (by decide)⟩⟩⟩

/-- C12, amended, on runs with an invalid wait configuration: an attachment created
with a poll interval of -1 ns is polled with -1 ns and 30 s, and one deleted with a poll
interval of 60 s and no timeout is polled with 60 s and 30 s; each call is the wait
with these values, as they are. -/
theorem storage_waits_are_not_validated_witness :
    (CreateStorageAttachment acmeClient { attachInput with PollInterval := -1 }
          ⟨quickAttach, []⟩ =
        waitForStorageAttachmentToFullyAttach acmeClient "/Compute-acme/jdoe/att" (-1)
          (30 * Second)
          ⟨quickAttach, [Call.createAttachment
            { attachInput with
              InstanceName := "/Compute-acme/jdoe/inst"
              StorageVolumeName := "/Compute-acme/jdoe/vol", PollInterval := -1 }]⟩ ∧
      waitCalls (CreateStorageAttachment acmeClient { attachInput with PollInterval := -1 }
          ⟨quickAttach, []⟩).2.trace =
        waitCalls [] ++ [Call.waitFor "storage attachment to be attached" (some (-1))
          (30 * Second)] ∧
      (validWaitSpec (-1) (30 * Second) ↔
        (0 : Duration) ≤ -1 ∧ (-1 : Duration) ≤ 30 * Second)) ∧
    (DeleteStorageAttachment acmeClient { Name := "att", PollInterval := 60 * Second }
          ⟨emptyWorld, []⟩ =
        waitForStorageAttachmentToBeDeleted acmeClient "att" (60 * Second) (30 * Second)
          ⟨emptyWorld, [Call.deleteAttachment "att"]⟩ ∧
      waitCalls (DeleteStorageAttachment acmeClient
          { Name := "att", PollInterval := 60 * Second } ⟨emptyWorld, []⟩).2.trace =
        waitCalls [] ++ [Call.waitFor "storage attachment to be deleted"
          (some (60 * Second)) (30 * Second)] ∧
      (validWaitSpec (60 * Second) (30 * Second) ↔
        (0 : Duration) ≤ 60 * Second ∧ (60 * Second : Duration) ≤ 30 * Second)) :=
  ⟨(storage_waits_are_not_validated acmeClient { attachInput with PollInterval := -1 }
      { Name := "att", PollInterval := 60 * Second } ⟨quickAttach, []⟩
      ⟨quickAttach, [Call.createAttachment
        { attachInput with
          InstanceName := "/Compute-acme/jdoe/inst"
          StorageVolumeName := "/Compute-acme/jdoe/vol", PollInterval := -1 }]⟩
      ⟨emptyWorld, []⟩ ⟨emptyWorld, [Call.deleteAttachment "att"]⟩
      (reportedAttachment "attaching")).1.2 rfl,
    (storage_waits_are_not_validated acmeClient { attachInput with PollInterval := -1 }
      { Name := "att", PollInterval := 60 * Second } ⟨quickAttach, []⟩
      ⟨quickAttach, [Call.createAttachment
        { attachInput with
          InstanceName := "/Compute-acme/jdoe/inst"
          StorageVolumeName := "/Compute-acme/jdoe/vol", PollInterval := -1 }]⟩
      ⟨emptyWorld, []⟩ ⟨emptyWorld, [Call.deleteAttachment "att"]⟩
      (reportedAttachment "attaching")).2.2 rfl⟩

/-! ## Convergence of the ready wait -/

/-- C14: for every sampled orchestration the ready probe reports converged exactly
when the status is not `terminal_error` and either the status equals the sample's
own desired state or the status is `suspended` and the desired state is `suspend`.
With the desired state `active`, a sample that is `activating` is "keep waiting" and
one that is `active` is converged; on the service that shows `activating`,
`activating`, `active`, the three probes report keep waiting, keep waiting,
converged, and the wait returns the orchestration under its unqualified name. -/
theorem ready_probe_convergence (c : ComputeClient σ) (input : GetOrchestrationInput)
    (l : Option Orchestration) (st st1 : St σ) (info : Orchestration)
    (hg : GetOrchestration c input st = (Res.ok (Except.ok info), st1)) :
    ((orchestrationReadyProbe c input l st).1 = Res.ok (true, none) ↔
      info.Status ≠ OrchestrationStatusError ∧
        (info.Status = info.DesiredState ∨
          (info.Status = OrchestrationStatusSuspended ∧
            info.DesiredState = OrchestrationDesiredStateSuspend))) ∧
    (info.DesiredState = OrchestrationDesiredStateActive →
      (info.Status = OrchestrationStatusActivating →
        (orchestrationReadyProbe c input l st).1 = Res.ok (false, none)) ∧
      (info.Status = OrchestrationStatusActive →
        (orchestrationReadyProbe c input l st).1 = Res.ok (true, none))) ∧
    ((orchestrationReadyProbe acmeClient { Name := "web" } none
        ⟨activatingThenActive, []⟩).1 = Res.ok (false, none) ∧
      (orchestrationReadyProbe acmeClient { Name := "web" } none
        (orchestrationReadyProbe acmeClient { Name := "web" } none
          ⟨activatingThenActive, []⟩).2.2).1 = Res.ok (false, none) ∧
      (orchestrationReadyProbe acmeClient { Name := "web" } none
        (orchestrationReadyProbe acmeClient { Name := "web" } none
          (orchestrationReadyProbe acmeClient { Name := "web" } none
            ⟨activatingThenActive, []⟩).2.2).2.2).1 = Res.ok (true, none) ∧
      (WaitForOrchestrationState acmeClient { Name := "web" } WaitForOrchestrationActiveTimeout
        ⟨activatingThenActive, []⟩).1 =
          Res.ok ({ webOrchestration "active" with Name := "web" }, none) ∧
      getRequests (WaitForOrchestrationState acmeClient { Name := "web" }
        WaitForOrchestrationActiveTimeout ⟨activatingThenActive, []⟩).2.trace =
          ["web", "web", "web"]) := by
  refine ⟨?_, ?_, ⟨rfl, rfl, rfl, rfl, by decide⟩⟩
  · unfold orchestrationReadyProbe
    simp only [hg]
    by_cases h1 : info.Status = OrchestrationStatusError
    · simp only [if_pos h1]
      split <;> simp [h1]
    · simp only [if_neg h1]
      by_cases h2 : info.Status = info.DesiredState
      · simp only [if_pos h2]
        exact ⟨fun _ => ⟨h1, Or.inl h2⟩, fun _ => trivial⟩
      · simp only [if_neg h2]
        split_ifs <;>
          simp_all [OrchestrationStatusActivating, OrchestrationStatusStopping,
            OrchestrationStatusSuspending, OrchestrationStatusDeactivating,
            OrchestrationStatusSuspended, OrchestrationStatusError]
  · intro hd
    have hne : OrchestrationStatusActivating ≠ OrchestrationStatusError := by decide
    have hne2 : OrchestrationStatusActivating ≠ OrchestrationDesiredStateActive := by decide
    have hne3 : OrchestrationStatusActive ≠ OrchestrationStatusError := by decide
    constructor
    · intro hs
      unfold orchestrationReadyProbe
      simp only [hg, hs, hd, if_neg hne, if_neg hne2, if_true]
    · intro hs
      unfold orchestrationReadyProbe
      simp only [hg, hs, hd, if_neg hne3]
      rfl

/-- C14, on a concrete sample: `web` seen `activating` with the desired state `active`
is not converged. -/
theorem ready_probe_convergence_witness :
    (orchestrationReadyProbe acmeClient { Name := "web" } none
        ⟨activatingThenActive, []⟩).1 = Res.ok (true, none) ↔
      "activating" ≠ OrchestrationStatusError ∧
        ("activating" = "active" ∨
          ("activating" = OrchestrationStatusSuspended ∧
            "active" = OrchestrationDesiredStateSuspend)) :=
  (ready_probe_convergence acmeClient { Name := "web" } none ⟨activatingThenActive, []⟩ _
    { webOrchestration "activating" with Name := "web" } rfl).1

/-! ## The ready wait when GetOrchestration fails -/

/-- On a poll iteration whose `GetOrchestration` fails, the poll loop of the ready wait
ends with that error and with the captured `info` nil. -/
theorem ready_pollLoop_on_Get_failure (c : ComputeClient σ) (input : GetOrchestrationInput)
    (d : String) (p : Option Duration) (n : Nat) (l : Option Orchestration) (st st1 : St σ)
    (e : GoError) (hg : GetOrchestration c input st = (Res.ok (Except.error e), st1)) :
    pollLoop c d p (orchestrationReadyProbe c input) n l st = (Res.ok (some e), none, st1) := by
  have hp : orchestrationReadyProbe c input l st = (Res.ok (false, some e), none, st1) := by
    unfold orchestrationReadyProbe
    simp only [hg]
  cases n <;> simp [pollLoop, hp]

/-- When the first `GetOrchestration` of the ready wait fails, whatever the error,
`WaitForOrchestrationState` panics on `*info` instead of returning the error. -/
theorem WaitForOrchestrationState_first_Get_failure (c : ComputeClient σ)
    (input : GetOrchestrationInput) (t : Duration) (st st1 : St σ) (e : GoError)
    (hg : GetOrchestration c input (st.log (Call.waitFor "orchestration to be ready" none t)) =
      (Res.ok (Except.error e), st1)) :
    WaitForOrchestrationState c input t st =
      (Res.panic "invalid memory address or nil pointer dereference", st1) := by
  unfold WaitForOrchestrationState WaitFor
  rw [ready_pollLoop_on_Get_failure c input _ _ _ _ _ st1 e hg]

/-- C15, the code at failing inputs: when the first `GetOrchestration` fails with a
server error, when it fails with NotFound, and when the second one fails after an
`activating` sample, `WaitForOrchestrationState` does not return the error: it panics
with a nil pointer dereference; `CreateOrchestration` panics with it. -/
theorem WaitForOrchestrationState_panics_when_Get_fails :
    (GetOrchestration acmeClient { Name := "web" } ⟨getFails, []⟩).1 =
        Res.ok (Except.error (GoError.transport false "500: internal error")) ∧
      (WaitForOrchestrationState acmeClient { Name := "web" } WaitForOrchestrationActiveTimeout
        ⟨getFails, []⟩).1 = Res.panic "invalid memory address or nil pointer dereference" ∧
    (WaitForOrchestrationState acmeClient { Name := "web" } WaitForOrchestrationActiveTimeout
        ⟨emptyWorld, []⟩).1 = Res.panic "invalid memory address or nil pointer dereference" ∧
    (WaitForOrchestrationState acmeClient { Name := "web" } WaitForOrchestrationActiveTimeout
        ⟨{ getFails with getReplies := Except.ok (webOrchestration "activating") ::
            getFails.getReplies }, []⟩).1 =
      Res.panic "invalid memory address or nil pointer dereference" ∧
    (CreateOrchestration acmeClient webInput ⟨getFails, []⟩).1 =
      Res.panic "invalid memory address or nil pointer dereference" :=
  ⟨rfl, rfl, rfl, rfl, rfl⟩

end Compute

namespace Application

open Compute (GoError Res)

/-! ## executeRequest: the debug log and the request sent -/

theorem Header.lookup_put_same (h : Header) (key : String) (values : List String) :
    Header.lookup (Header.put h key values) key = values := by
  induction h with
  | nil => simp [Header.put, Header.lookup]
  | cons x xs ih =>
    obtain ⟨k, vs⟩ := x
    by_cases hk : k = key
    · simp [Header.put, Header.lookup, hk]
    · simp [Header.put, Header.lookup, hk, ih]

theorem Header.lookup_put_other (h : Header) (key other : String) (values : List String)
    (hne : other ≠ key) :
    Header.lookup (Header.put h key values) other = Header.lookup h other := by
  induction h with
  | nil => simp [Header.put, Header.lookup, Ne.symm hne]
  | cons x xs ih =>
    obtain ⟨k, vs⟩ := x
    by_cases hk : k = key
    · subst hk
      simp [Header.put, Header.lookup, Ne.symm hne]
    · by_cases ho : k = other
      · subst ho
        simp [Header.put, Header.lookup, hk]
      · simp [Header.put, Header.lookup, hk, ho, ih]

/-- `Header.Add` puts the value among the values of its key. -/
theorem Header.mem_Values_Add_self (canonical : String → String) (h : Header)
    (key value : String) :
    value ∈ Header.Values canonical (Header.Add canonical h key value) key := by
  simp [Header.Values, Header.Add, Header.lookup_put_same]

/-- `Header.Add` removes no value of any key. -/
theorem Header.mem_Values_Add_of_mem (canonical : String → String) (h : Header)
    (key value other x : String) (hx : x ∈ Header.Values canonical h other) :
    x ∈ Header.Values canonical (Header.Add canonical h key value) other := by
  unfold Header.Values Header.Add
  unfold Header.Values at hx
  by_cases hk : canonical other = canonical key
  · rw [hk, Header.lookup_put_same]
    rw [hk] at hx
    exact List.mem_append_left _ hx
  · rw [Header.lookup_put_other _ _ _ _ hk]
    exact hx

/-- C13: the strings `executeRequest` passes to the debug log are the same for any
two clients that differ only in the authentication header (nil or any value): they
are computed from the built request, with its content type when there is a body,
before the Authorization header is added. When the request is built and executed,
the one request sent carries the authentication header value under `Authorization`
and the identity domain under the tenant header. -/
theorem executeRequest_log_independent_of_authHeader {ω : Type} (client : Client ω)
    (a1 a2 : Option String) (method path : String) (body : Option String) (st : AppSt ω) :
    (executeRequest { client := client, authHeader := a1 } method path body st).2.debugLog =
      (executeRequest { client := client, authHeader := a2 } method path body st).2.debugLog ∧
    ∀ (req : Request) (auth domain : String),
      client.BuildRequest method path body = Except.ok req →
      client.IdentityDomain = some domain →
      (executeRequest { client := client, authHeader := a1 } method path body st).2.debugLog =
        st.debugLog ++ ["HTTP " ++ method ++ " Path (" ++ path ++ ")",
          "Req (" ++ client.fmtRequest
            (if body.isSome then
              { req with
                Header := (Header.Set client.CanonicalMIMEHeaderKey req.Header "Content-Type"
                  "application/vnd.com.oracle.oracloud.provisioning.Service+json") }
            else req) ++ ")"] ∧
      ∃ sentReq,
        (executeRequest { client := client, authHeader := some auth } method path body
          st).2.sent = st.sent ++ [sentReq] ∧
        auth ∈ Header.Values client.CanonicalMIMEHeaderKey sentReq.Header AUTH_HEADER ∧
        domain ∈ Header.Values client.CanonicalMIMEHeaderKey sentReq.Header TENANT_HEADER := by
  have hlog : ∀ a : Option String,
      (executeRequest { client := client, authHeader := a } method path body st).2.debugLog =
        match client.BuildRequest method path body with
        | Except.error _ => st.debugLog
        | Except.ok req =>
          st.debugLog ++ ["HTTP " ++ method ++ " Path (" ++ path ++ ")",
            "Req (" ++ client.fmtRequest
              (if body.isSome then
                { req with
                  Header := (Header.Set client.CanonicalMIMEHeaderKey req.Header "Content-Type"
                    "application/vnd.com.oracle.oracloud.provisioning.Service+json") }
              else req) ++ ")"] := by
    intro a
    unfold executeRequest
    cases client.BuildRequest method path body with
    | error err => rfl
    | ok req =>
      simp only []
      cases a with
      | none => simp
      | some auth =>
        simp only []
        cases client.IdentityDomain with
        | none => simp
        | some domain =>
          simp only []
          split <;> simp
  refine ⟨(hlog a1).trans (hlog a2).symm, ?_⟩
  intro req auth domain hb hd
  refine ⟨by rw [hlog a1, hb], ?_⟩
  unfold executeRequest
  simp only [hb, hd]
  split
  all_goals
    refine ⟨_, rfl, ?_, ?_⟩
    · exact Header.mem_Values_Add_of_mem _ _ _ _ _ _ (Header.mem_Values_Add_self _ _ _ _)
    · exact Header.mem_Values_Add_self _ _ _ _

/-- C13, a concrete run: a POST with a body by a client whose authentication header
is `Basic c2VjcmV0`. The log holds the request line and the request with its content
type only; the request sent carries the Authorization and tenant headers. -/
theorem executeRequest_log_independent_of_authHeader_witness :
    (executeRequest { client := demoClient, authHeader := some "Basic c2VjcmV0" }
        "POST" "/apps" (some "payload") ⟨(), [], []⟩).2.debugLog =
      [] ++ ["HTTP " ++ "POST" ++ " Path (" ++ "/apps" ++ ")",
        "Req (" ++ "POST https://apaas.example/apps Content-Type:" ++
          "application/vnd.com.oracle.oracloud.provisioning.Service+json;" ++ ")"] ∧
    ∃ sentReq,
      (executeRequest { client := demoClient, authHeader := some "Basic c2VjcmV0" }
        "POST" "/apps" (some "payload") ⟨(), [], []⟩).2.sent = [] ++ [sentReq] ∧
      "Basic c2VjcmV0" ∈ Header.Values demoClient.CanonicalMIMEHeaderKey sentReq.Header
        AUTH_HEADER ∧
      "acme" ∈ Header.Values demoClient.CanonicalMIMEHeaderKey sentReq.Header TENANT_HEADER :=
  (executeRequest_log_independent_of_authHeader demoClient (some "Basic c2VjcmV0") none
    "POST" "/apps" (some "payload") ⟨(), [], []⟩).2
    { Method := "POST", URL := "https://apaas.example/apps", Body := some "payload" }
    "Basic c2VjcmV0" "acme" rfl rfl

end Application
